import Mathlib

/-!
Verification of the Miracle-Grue polygon inset engine ("Shrinky",
src/mgl/shrinky.cc) and the containment tree (src/mgl/ContainmentTree_decl.h).

The geometry is embedded over the real numbers: the C++ code computes with
doubles, and every claim under study is about the ideal geometric values, so
Scalar is modelled by `ℝ`.  External geometric primitives (libthing vectors,
`sameSame`, `segmentSegmentIntersection`) are not part of this repository's
sources; they are modelled from the specification and marked as such.
-/

open Classical

noncomputable section

/-- A 2d vector / point with real coordinates, mirroring libthing `Vector2`. -/
structure Vector2 where
  x : ℝ
  y : ℝ

instance : Inhabited Vector2 := ⟨⟨0, 0⟩⟩

instance : Add Vector2 := ⟨fun v w => ⟨v.x + w.x, v.y + w.y⟩⟩

instance : Sub Vector2 := ⟨fun v w => ⟨v.x - w.x, v.y - w.y⟩⟩

namespace Vector2

/-- Modelled from the spec: scalar multiplication of a libthing vector
(`v *= d`), an external geometric primitive. -/
def scale (d : ℝ) (v : Vector2) : Vector2 := ⟨d * v.x, d * v.y⟩

/-- Modelled from the spec: euclidean magnitude of a libthing vector,
an external geometric primitive. -/
def magnitude (v : Vector2) : ℝ := Real.sqrt (v.x ^ 2 + v.y ^ 2)

/-- Modelled from the spec: `Vector2::normalise` divides the vector by its
magnitude in place; an external geometric primitive. -/
def normalise (v : Vector2) : Vector2 := ⟨v.x / v.magnitude, v.y / v.magnitude⟩

/-- The z-component of the cross product of two planar vectors. -/
def cross (v w : Vector2) : ℝ := v.x * w.y - v.y * w.x

/-- Modelled from the spec: `Point2::sameSame` coincidence test within a
tolerance (`same_same(other, ε)` in the spec's interface list). -/
def sameSame (p q : Vector2) (tol : ℝ) : Prop :=
  (p.x - q.x) ^ 2 + (p.y - q.y) ^ 2 < tol ^ 2

@[ext] theorem ext {v w : Vector2} (hx : v.x = w.x) (hy : v.y = w.y) : v = w := by
  cases v; cases w; simp_all

@[simp] theorem add_x (v w : Vector2) : (v + w).x = v.x + w.x := rfl

@[simp] theorem add_y (v w : Vector2) : (v + w).y = v.y + w.y := rfl

@[simp] theorem sub_x (v w : Vector2) : (v - w).x = v.x - w.x := rfl

@[simp] theorem sub_y (v w : Vector2) : (v - w).y = v.y - w.y := rfl

@[simp] theorem scale_x (d : ℝ) (v : Vector2) : (scale d v).x = d * v.x := rfl

@[simp] theorem scale_y (d : ℝ) (v : Vector2) : (scale d v).y = d * v.y := rfl

end Vector2

/-- A 3d vector with real coordinates, mirroring libthing Vector3 (that name is taken by Mathlib). -/
structure Vec3 where
  x : ℝ
  y : ℝ
  z : ℝ

namespace Vec3

/-- Modelled from the spec: the 3d cross product, an external geometric
primitive used by `getInsetDirection`. -/
def crossProduct (v w : Vec3) : Vec3 :=
  ⟨v.y * w.z - v.z * w.y, v.z * w.x - v.x * w.z, v.x * w.y - v.y * w.x⟩

/-- Modelled from the spec: euclidean magnitude of a libthing 3d vector. -/
def magnitude (v : Vec3) : ℝ := Real.sqrt (v.x ^ 2 + v.y ^ 2 + v.z ^ 2)

/-- Modelled from the spec: `Vec3::normalise` divides by the magnitude. -/
def normalise (v : Vec3) : Vec3 :=
  ⟨v.x / v.magnitude, v.y / v.magnitude, v.z / v.magnitude⟩

end Vec3

/-- A 2d line segment, mirroring `TriangleSegment2` from libthing. -/
structure Segment where
  a : Vector2
  b : Vector2

instance : Inhabited Segment := ⟨⟨⟨0, 0⟩, ⟨0, 0⟩⟩⟩

namespace Segment

/-- Modelled from the spec: `TriangleSegment2::length`. -/
def length (s : Segment) : ℝ := (s.b - s.a).magnitude

/-- Modelled from the spec: `TriangleSegment2::squaredLength`. -/
def squaredLength (s : Segment) : ℝ := (s.b.x - s.a.x) ^ 2 + (s.b.y - s.a.y) ^ 2

@[ext] theorem ext_ab {s t : Segment} (ha : s.a = t.a) (hb : s.b = t.b) :
    s = t := by
  cases s; cases t; simp_all

end Segment

/-- Modelled from the spec: segment-segment intersection returning an optional
point (external geometric primitive).  Solves `s1.a + t·r = s2.a + u·s` for
the parameters `t`, `u` and returns the point when both lie in `[0, 1]`;
parallel segments yield no intersection. -/
def segmentSegmentIntersection (s1 s2 : Segment) : Option Vector2 :=
  let r := s1.b - s1.a
  let s := s2.b - s2.a
  let qp := s2.a - s1.a
  let denom := Vector2.cross r s
  if denom = 0 then none
  else
    let t := Vector2.cross qp s / denom
    let u := Vector2.cross qp r / denom
    if 0 ≤ t ∧ t ≤ 1 ∧ 0 ≤ u ∧ u ≤ 1 then
      some (s1.a + Vector2.scale t r)
    else none

/-- The sign of twice the signed area of triangle `a b c` (shrinky.cc
`AreaSign`). -/
def AreaSign (a b c : Vector2) : ℝ :=
  (b.x - a.x) * (c.y - a.y) - (c.x - a.x) * (b.y - a.y)

/-- A vertex `j` between `i` and `k` is convex when the signed area is
negative (shrinky.cc `convexVertex`). -/
def convexVertex (i j k : Vector2) : Prop := AreaSign i j k < 0

/-- The inset direction of a segment (shrinky.cc `getInsetDirection`):
the normalised cross product of the segment direction with `+z`, restricted
to the plane. -/
def getInsetDirection (seg : Segment) : Vector2 :=
  let v : Vec3 := ⟨seg.b.x - seg.a.x, seg.b.y - seg.a.y, 0⟩
  let up : Vec3 := ⟨0, 0, 1⟩
  let inset := (v.crossProduct up).normalise
  ⟨inset.x, inset.y⟩

/-- Raw inset (shrinky.cc `insetSegments`): translate every segment by
`d` times its inset direction. -/
def insetSegments (segments : List Segment) (d : ℝ) : List Segment :=
  segments.map fun seg =>
    let inset := Vector2.scale d (getInsetDirection seg)
    ⟨seg.a + inset, seg.b + inset⟩

/-- Segment elongation (shrinky.cc `elongate`): push the endpoints outward
along the segment direction by `dist`. -/
def elongate (s : Segment) (dist : ℝ) (fromStart fromEnd : Bool) : Segment :=
  let l := Vector2.scale dist (s.b - s.a).normalise
  let b := if fromEnd then s.b + l else s.b
  let a := if fromStart then s.a - l else s.a
  ⟨a, b⟩

/-- shrinky.cc `attachSegments`: elongate `first` at its end and `next` at its
start, intersect, and when an intersection exists move `first.b` and `next.a`
to it.  Returns the (possibly updated) pair together with the success flag. -/
def attachSegments (first next : Segment) (elongation : ℝ) :
    Segment × Segment × Bool :=
  let a := elongate first elongation false true
  let b := elongate next elongation true false
  match segmentSegmentIntersection a b with
  | some intersection => (⟨first.a, intersection⟩, ⟨intersection, next.b⟩, true)
  | none => (first, next, false)

/-- shrinky.cc `triangleAltitude`: the altitude from side `a` of a triangle
with side lengths `a`, `b`, `c`, by Heron's formula. -/
def triangleAltitude (a b c : ℝ) : ℝ :=
  let s := 0.5 * (a + b + c)
  2 * Real.sqrt (s * (s - a) * (s - b) * (s - c)) / a

/-- shrinky.cc `edgeCollapse`: attach the two bisector rays of the segment
(after elongation); the edge collapses when they intersect and the altitude of
the resulting triangle from the segment is below the inset distance. -/
def edgeCollapse (segment : Segment) (bisector0 bisector1 : Vector2)
    (insetDistance elongation : ℝ) : Prop :=
  let bisectorSegment0 : Segment := ⟨segment.a, segment.a + bisector0⟩
  let bisectorSegment1 : Segment := ⟨segment.b, segment.b + bisector1⟩
  let res := attachSegments bisectorSegment0 bisectorSegment1 elongation
  res.2.2 = true ∧
    triangleAltitude segment.length (segment.a - res.1.b).magnitude
      (segment.b - res.1.b).magnitude < insetDistance

/-- Cyclic successor of an index below `n` (the `j==n-1 ? 0 : j+1` pattern of
shrinky.cc). -/
def wrapSucc (n j : ℕ) : ℕ := if j = n - 1 then 0 else j + 1

/-- Cyclic predecessor of an index (the `i==0 ? n-1 : i-1` pattern of
shrinky.cc). -/
def prevIdx (n i : ℕ) : ℕ := if i = 0 then n - 1 else i - 1

/-- The iteration of shrinky.cc `removeCollapsedSegments`: one step per input
segment, carrying the `prevBisector`, `currId`, `nextBisector` counters; the
`prevBisector` counter advances only when the segment did not collapse. -/
def rcsAux (segments : List Segment) (bisectors : List Vector2)
    (insetDist elongation : ℝ) :
    List ℕ → ℕ × ℕ × ℕ → List Segment → List Segment
  | [], _, acc => acc
  | _ :: rest, (prevB, currId, nextB), acc =>
    let n := segments.length
    let currentSegment := segments.getD currId default
    if edgeCollapse currentSegment (bisectors.getD prevB default)
        (bisectors.getD nextB default) insetDist elongation then
      rcsAux segments bisectors insetDist elongation rest
        (prevB, wrapSucc n currId, wrapSucc n nextB) acc
    else
      rcsAux segments bisectors insetDist elongation rest
        (wrapSucc n prevB, wrapSucc n currId, wrapSucc n nextB)
        (acc ++ [currentSegment])

/-- shrinky.cc `removeCollapsedSegments`: drop the segments whose bisector
rays (elongated by the fixed factor 100) intersect at an altitude below the
inset distance.  The counters start at `prevBisector = n-1`, `currId = 0`,
`nextBisector = 1`. -/
def removeCollapsedSegments (segments : List Segment) (bisectors : List Vector2)
    (insetDist : ℝ) : List Segment :=
  rcsAux segments bisectors insetDist 100 (List.range segments.length)
    (segments.length - 1, 0, 1) []

/-- One iteration of the shrinky.cc `elongateAndTrimSegments` loop: attach
the pair at `(i-1 mod n, i)` in place, ignoring attachment failures. -/
def etsStep (elongation : ℝ) (segs : List Segment) (i : ℕ) : List Segment :=
  let pId := prevIdx segs.length i
  let previousSegment := segs.getD pId default
  let currentSegment := segs.getD i default
  let res := attachSegments previousSegment currentSegment elongation
  (segs.set pId res.1).set i res.2.1

/-- shrinky.cc `elongateAndTrimSegments`: copy the segments, then for each
index `i` attach the pair at `(i-1 mod n, i)` in place, ignoring attachment
failures. -/
def elongateAndTrimSegments (longSegments : List Segment) (elongation : ℝ) :
    List Segment :=
  (List.range longSegments.length).foldl (etsStep elongation) longSegments

/-- The error condition thrown by the inset engine (`ShrinkyMess` in
shrinky.cc), distinguished by throw site. -/
inductive ShrinkyMess where
  /-- "This is not a closed polygon" (createBisectors). -/
  | notClosedPolygon : ShrinkyMess
  /-- "n line segment is not enough to create a closed polygon"
  (Shrinky::inset). -/
  | tooFewSegments : ShrinkyMess
deriving DecidableEq

/-- The body of the shrinky.cc `createBisectors` loop over a list of indices:
at each index, check that the previous segment's end coincides with the
current segment's start (within `tol`) and emit the normalised sum of the two
adjacent inset directions; otherwise fail. -/
def cbAux (segments : List Segment) (tol : ℝ) :
    List ℕ → Except ShrinkyMess (List Vector2)
  | [] => .ok []
  | i :: rest =>
    let pId := prevIdx segments.length i
    let prevSeg := segments.getD pId default
    let seg := segments.getD i default
    let prevInset := getInsetDirection prevSeg
    let inset := getInsetDirection seg
    if Vector2.sameSame prevSeg.b seg.a tol then
      match cbAux segments tol rest with
      | .ok bs => .ok (Vector2.normalise (inset + prevInset) :: bs)
      | .error e => .error e
    else .error ShrinkyMess.notClosedPolygon

/-- shrinky.cc `createBisectors`: one bisector per segment start vertex;
throws when the polygon is not closed within `tol`. -/
def createBisectors (segments : List Segment) (tol : ℝ) :
    Except ShrinkyMess (List Vector2) :=
  cbAux segments tol (List.range segments.length)

/-- shrinky.cc `Shrinky::inset`: reject inputs of fewer than two segments,
build the bisectors (failing on an open polygon), remove collapsed segments,
and if any survive, translate them inward and elongate-and-trim; otherwise
the output stays empty. -/
def shrinkyInset (originalSegments : List Segment)
    (insetDist cutoffLength : ℝ) : Except ShrinkyMess (List Segment) :=
  if originalSegments.length < 2 then .error ShrinkyMess.tooFewSegments
  else
    match createBisectors originalSegments cutoffLength with
    | .error e => .error e
    | .ok bisectors =>
      let relevantSegments :=
        removeCollapsedSegments originalSegments bisectors insetDist
      if 0 < relevantSegments.length then
        let insets := insetSegments relevantSegments insetDist
        let elongation := insetDist * 100
        .ok (elongateAndTrimSegments insets elongation)
      else .ok []

/-- The iteration of shrinky.cc `removeShortSegments`: when the next segment
is shorter than the cutoff, extend the current segment to the next one's end
and skip an index; the (possibly extended) current segment is always kept.
The first argument is fuel bounding the number of iterations (the C++ `for`
loop performs at most one iteration per index). -/
def rssAux (segments : List Segment) (cutoffLength2 : ℝ) :
    List Unit → ℕ → List Segment → List Segment
  | [], _, acc => acc
  | _ :: fuel, i, acc =>
    if i < segments.length then
      let nextId := wrapSucc segments.length i
      let seg := segments.getD i default
      let nextSeg := segments.getD nextId default
      if nextSeg.squaredLength < cutoffLength2 then
        rssAux segments cutoffLength2 fuel (i + 2) (acc ++ [⟨seg.a, nextSeg.b⟩])
      else
        rssAux segments cutoffLength2 fuel (i + 1) (acc ++ [seg])
    else acc

/-- shrinky.cc `removeShortSegments` (defined in the source but not invoked
by `Shrinky::inset`): merge each segment with a too-short successor. -/
def removeShortSegments (segments : List Segment) (cutoffLength : ℝ) :
    List Segment :=
  rssAux segments (cutoffLength * cutoffLength)
    (List.replicate (segments.length + 1) ()) 0 []

/-- Closedness of a cyclic segment list within a tolerance: each segment's
start coincides with the previous segment's end (the adjacency checked by
`createBisectors`). -/
def isClosedPoly (segments : List Segment) (tol : ℝ) : Prop :=
  ∀ i < segments.length,
    Vector2.sameSame (segments.getD (prevIdx segments.length i) default).b
      (segments.getD i default).a tol


/-- Membership form of closedness, used to reason about `cbAux`. -/
def closedAt (segments : List Segment) (tol : ℝ) (i : ℕ) : Prop :=
  Vector2.sameSame (segments.getD (prevIdx segments.length i) default).b
    (segments.getD i default).a tol

/-- The bisector the code computes at segment `i`'s start vertex. -/
def bisectorAt (segments : List Segment) (i : ℕ) : Vector2 :=
  Vector2.normalise
    (getInsetDirection (segments.getD i default) +
      getInsetDirection (segments.getD (prevIdx segments.length i) default))

/-- The un-normalised sum of the two inset directions adjacent to segment
`i`'s start vertex. -/
def bisectorSumAt (segments : List Segment) (i : ℕ) : Vector2 :=
  getInsetDirection (segments.getD i default) +
    getInsetDirection (segments.getD (prevIdx segments.length i) default)

end

section evalLemmas

theorem sqrt_eval {a m : ℝ} (hm : 0 ≤ m) (h : m ^ 2 = a) : Real.sqrt a = m := by
  rw [← h]
  exact Real.sqrt_sq hm

theorem magnitude_eval {v : Vector2} {m : ℝ} (hm : 0 ≤ m)
    (h : v.x ^ 2 + v.y ^ 2 = m ^ 2) : v.magnitude = m :=
  sqrt_eval hm h.symm

theorem normalise_eval {v : Vector2} {m : ℝ} (hm : 0 ≤ m)
    (h : v.x ^ 2 + v.y ^ 2 = m ^ 2) :
    v.normalise = ⟨v.x / m, v.y / m⟩ := by
  rw [Vector2.normalise, magnitude_eval hm h]

theorem magnitude3_eval {v : Vec3} {m : ℝ} (hm : 0 ≤ m)
    (h : v.x ^ 2 + v.y ^ 2 + v.z ^ 2 = m ^ 2) : v.magnitude = m :=
  sqrt_eval hm h.symm

theorem getInsetDirection_eval (s : Segment) {m : ℝ} (hm : 0 ≤ m)
    (h : (s.b.x - s.a.x) ^ 2 + (s.b.y - s.a.y) ^ 2 = m ^ 2) :
    getInsetDirection s = ⟨(s.b.y - s.a.y) / m, -(s.b.x - s.a.x) / m⟩ := by
  show Vector2.mk
    ((Vec3.normalise (Vec3.crossProduct ⟨s.b.x - s.a.x, s.b.y - s.a.y, 0⟩ ⟨0, 0, 1⟩)).x)
    ((Vec3.normalise (Vec3.crossProduct ⟨s.b.x - s.a.x, s.b.y - s.a.y, 0⟩ ⟨0, 0, 1⟩)).y) = _
  have hc : Vec3.crossProduct ⟨s.b.x - s.a.x, s.b.y - s.a.y, 0⟩ ⟨0, 0, 1⟩ =
      ⟨s.b.y - s.a.y, -(s.b.x - s.a.x), 0⟩ := by
    simp [Vec3.crossProduct]
  rw [hc, Vec3.normalise]
  have hmag : Vec3.magnitude ⟨s.b.y - s.a.y, -(s.b.x - s.a.x), 0⟩ = m := by
    apply magnitude3_eval hm
    ring_nf
    ring_nf at h
    linarith [h]
  rw [hmag]

theorem elongate_end_eval (s : Segment) (dist : ℝ) {m : ℝ} (hm : 0 ≤ m)
    (h : (s.b.x - s.a.x) ^ 2 + (s.b.y - s.a.y) ^ 2 = m ^ 2) :
    elongate s dist false true =
      ⟨s.a, ⟨s.b.x + dist * ((s.b.x - s.a.x) / m),
             s.b.y + dist * ((s.b.y - s.a.y) / m)⟩⟩ := by
  rw [elongate]
  have hn : (s.b - s.a).normalise =
      ⟨(s.b.x - s.a.x) / m, (s.b.y - s.a.y) / m⟩ := normalise_eval hm h
  simp only [hn]
  ext <;> simp [Vector2.scale]

theorem elongate_start_eval (s : Segment) (dist : ℝ) {m : ℝ} (hm : 0 ≤ m)
    (h : (s.b.x - s.a.x) ^ 2 + (s.b.y - s.a.y) ^ 2 = m ^ 2) :
    elongate s dist true false =
      ⟨⟨s.a.x - dist * ((s.b.x - s.a.x) / m),
        s.a.y - dist * ((s.b.y - s.a.y) / m)⟩, s.b⟩ := by
  rw [elongate]
  have hn : (s.b - s.a).normalise =
      ⟨(s.b.x - s.a.x) / m, (s.b.y - s.a.y) / m⟩ := normalise_eval hm h
  simp only [hn]
  ext <;> simp [Vector2.scale]

theorem ssi_none_of_cross_eq_zero {s1 s2 : Segment}
    (h : Vector2.cross (s1.b - s1.a) (s2.b - s2.a) = 0) :
    segmentSegmentIntersection s1 s2 = none := by
  rw [segmentSegmentIntersection]
  simp [h]

theorem ssi_eval (s1 s2 : Segment) (t u : ℝ)
    (hd : Vector2.cross (s1.b - s1.a) (s2.b - s2.a) ≠ 0)
    (ht : Vector2.cross (s2.a - s1.a) (s2.b - s2.a) =
      t * Vector2.cross (s1.b - s1.a) (s2.b - s2.a))
    (hu : Vector2.cross (s2.a - s1.a) (s1.b - s1.a) =
      u * Vector2.cross (s1.b - s1.a) (s2.b - s2.a)) :
    segmentSegmentIntersection s1 s2 =
      if 0 ≤ t ∧ t ≤ 1 ∧ 0 ≤ u ∧ u ≤ 1 then
        some (s1.a + Vector2.scale t (s1.b - s1.a))
      else none := by
  rw [segmentSegmentIntersection]
  simp only [if_neg hd]
  have ht2 : Vector2.cross (s2.a - s1.a) (s2.b - s2.a) /
      Vector2.cross (s1.b - s1.a) (s2.b - s2.a) = t := by
    rw [ht]; field_simp
  have hu2 : Vector2.cross (s2.a - s1.a) (s1.b - s1.a) /
      Vector2.cross (s1.b - s1.a) (s2.b - s2.a) = u := by
    rw [hu]; field_simp
  rw [ht2, hu2]

theorem attach_of_none {first next : Segment} {elongation : ℝ}
    (h : segmentSegmentIntersection (elongate first elongation false true)
      (elongate next elongation true false) = none) :
    attachSegments first next elongation = (first, next, false) := by
  rw [attachSegments]
  simp only [h]

theorem attach_of_some {first next : Segment} {elongation : ℝ} {p : Vector2}
    (h : segmentSegmentIntersection (elongate first elongation false true)
      (elongate next elongation true false) = some p) :
    attachSegments first next elongation =
      (⟨first.a, p⟩, ⟨p, next.b⟩, true) := by
  rw [attachSegments]
  simp only [h]

theorem not_edgeCollapse_of_attach_false {segment : Segment}
    {bisector0 bisector1 : Vector2} {insetDistance elongation : ℝ}
    (h : (attachSegments ⟨segment.a, segment.a + bisector0⟩
      ⟨segment.b, segment.b + bisector1⟩ elongation).2.2 = false) :
    ¬ edgeCollapse segment bisector0 bisector1 insetDistance elongation := by
  rw [edgeCollapse]
  intro hc
  rw [h] at hc
  exact absurd hc.1 (by simp)

theorem edgeCollapse_of_attach {segment : Segment}
    {bisector0 bisector1 : Vector2} {insetDistance elongation : ℝ} {p : Vector2}
    (h : attachSegments ⟨segment.a, segment.a + bisector0⟩
      ⟨segment.b, segment.b + bisector1⟩ elongation = (⟨segment.a, p⟩, ⟨p, segment.b + bisector1⟩, true))
    (halt : triangleAltitude segment.length (segment.a - p).magnitude
      (segment.b - p).magnitude < insetDistance) :
    edgeCollapse segment bisector0 bisector1 insetDistance elongation := by
  rw [edgeCollapse]
  rw [h]
  exact ⟨rfl, halt⟩

end evalLemmas

section generalLemmas

theorem cbAux_ok (segments : List Segment) (tol : ℝ) :
    ∀ l : List ℕ, (∀ i ∈ l, closedAt segments tol i) →
      cbAux segments tol l = .ok (l.map (bisectorAt segments))
  | [], _ => rfl
  | i :: rest, h => by
    have hi : closedAt segments tol i := h i (List.mem_cons_self i rest)
    have hrest := cbAux_ok segments tol rest
      (fun j hj => h j (List.mem_cons_of_mem i hj))
    have hi2 : Vector2.sameSame
        (segments.getD (prevIdx segments.length i) default).b
        (segments.getD i default).a tol := hi
    simp only [cbAux]
    rw [if_pos hi2, hrest]
    simp [bisectorAt]

theorem cbAux_error (segments : List Segment) (tol : ℝ) :
    ∀ l : List ℕ, (∃ i ∈ l, ¬ closedAt segments tol i) →
      cbAux segments tol l = .error ShrinkyMess.notClosedPolygon
  | [], h => absurd h (by simp)
  | i :: rest, h => by
    simp only [cbAux]
    by_cases hi : closedAt segments tol i
    · have hi2 : Vector2.sameSame
          (segments.getD (prevIdx segments.length i) default).b
          (segments.getD i default).a tol := hi
      rw [if_pos hi2]
      have hrest : ∃ j ∈ rest, ¬ closedAt segments tol j := by
        rcases h with ⟨j, hj, hcl⟩
        rcases List.mem_cons.mp hj with rfl | hj2
        · exact absurd hi hcl
        · exact ⟨j, hj2, hcl⟩
      rw [cbAux_error segments tol rest hrest]
    · have hi2 : ¬ Vector2.sameSame
          (segments.getD (prevIdx segments.length i) default).b
          (segments.getD i default).a tol := hi
      rw [if_neg hi2]

theorem createBisectors_ok (segments : List Segment) (tol : ℝ)
    (h : isClosedPoly segments tol) :
    createBisectors segments tol =
      .ok ((List.range segments.length).map (bisectorAt segments)) := by
  apply cbAux_ok
  intro i hi
  exact h i (List.mem_range.mp hi)

theorem createBisectors_error (segments : List Segment) (tol : ℝ)
    (h : ¬ isClosedPoly segments tol) :
    createBisectors segments tol = .error ShrinkyMess.notClosedPolygon := by
  apply cbAux_error
  rw [isClosedPoly] at h
  push_neg at h
  rcases h with ⟨i, hi, hcl⟩
  exact ⟨i, List.mem_range.mpr hi, hcl⟩

theorem createBisectors_ok_inv {segments : List Segment} {tol : ℝ}
    {bs : List Vector2} (h : createBisectors segments tol = .ok bs) :
    isClosedPoly segments tol ∧
      bs = (List.range segments.length).map (bisectorAt segments) := by
  by_cases hcl : isClosedPoly segments tol
  · refine ⟨hcl, ?_⟩
    rw [createBisectors_ok segments tol hcl] at h
    exact (Except.ok.inj h).symm
  · rw [createBisectors_error segments tol hcl] at h
    exact absurd h (by simp)

theorem magnitude_normalise_of_ne {v : Vector2} (h : v ≠ ⟨0, 0⟩) :
    v.normalise.magnitude = 1 := by
  have h0 : v.x ≠ 0 ∨ v.y ≠ 0 := by
    by_contra hc
    push_neg at hc
    exact h (Vector2.ext hc.1 hc.2)
  have hpos : 0 < v.x ^ 2 + v.y ^ 2 := by
    rcases h0 with hx | hy
    · have := pow_two_pos_of_ne_zero hx
      nlinarith [sq_nonneg v.y]
    · have := pow_two_pos_of_ne_zero hy
      nlinarith [sq_nonneg v.x]
  have hmpos : 0 < v.magnitude := Real.sqrt_pos.mpr hpos
  have hsq : v.magnitude ^ 2 = v.x ^ 2 + v.y ^ 2 := Real.sq_sqrt hpos.le
  apply magnitude_eval (by norm_num : (0 : ℝ) ≤ 1)
  rw [Vector2.normalise]
  field_simp
  linarith [hsq]

theorem insetSegments_length (segments : List Segment) (d : ℝ) :
    (insetSegments segments d).length = segments.length := by
  rw [insetSegments, List.length_map]

theorem elongateAndTrimSegments_length (longSegments : List Segment)
    (elongation : ℝ) :
    (elongateAndTrimSegments longSegments elongation).length =
      longSegments.length := by
  rw [elongateAndTrimSegments]
  generalize List.range longSegments.length = idxs
  induction idxs generalizing longSegments with
  | nil => rfl
  | cons i rest ih =>
    rw [List.foldl_cons]
    rw [ih]
    simp [etsStep]

end generalLemmas

section treeModel

/-- Modelled from the spec: the generic containment tree of
ContainmentTree_decl.h (the implementation file is not among the sources).
A tree carries an optional loop (`none` for the sentinel root), a list of
children and a payload, per §3 and §4.1 of the spec. -/
inductive CTree (L T : Type) : Type where
  | mk (loop : Option L) (children : List (CTree L T)) (value : T)

namespace CTree

/-- The loop of a containment tree (`m_loop`); `none` encodes a root. -/
def loop {L T : Type} : CTree L T → Option L
  | ⟨l, _, _⟩ => l

/-- Modelled from the spec: `ContainmentTree::isValid` — normal trees have a
loop, roots do not. -/
def isValid {L T : Type} (t : CTree L T) : Bool := t.loop.isSome

/-- Modelled from the spec: `ContainmentTree::contains(other)`.  Per the
header documentation, roots return true for all normal trees and false for
other roots; normal trees return false for roots and use the point-in-polygon
winding test on a point of the other tree's loop otherwise.  The winding test
`W` and the choice of a point on a loop `rep` are external geometric
primitives passed as parameters. -/
def contains {L P T : Type} (W : L → P → Bool) (rep : L → P) :
    CTree L T → CTree L T → Bool
  | ⟨none, _, _⟩, other => other.isValid
  | ⟨some _, _, _⟩, ⟨none, _, _⟩ => false
  | ⟨some l, _, _⟩, ⟨some l2, _, _⟩ => W l (rep l2)

end CTree

end treeModel

/-- Claim C9: `ContainmentTree::contains` — a root tree contains exactly the normal
trees (every normal tree, no root); a normal tree never contains a root; and
a normal tree contains another normal tree iff the winding test of its own
loop holds for a point of the other tree's loop. -/
theorem C9_containmentTree_contains :
    ∀ (L P T : Type) (W : L → P → Bool) (rep : L → P),
      (∀ (ch : List (CTree L T)) (v : T) (other : CTree L T),
        CTree.contains W rep ⟨none, ch, v⟩ other = other.isValid) ∧
      (∀ (self : CTree L T) (ch : List (CTree L T)) (v : T),
        CTree.contains W rep self ⟨none, ch, v⟩ = false) ∧
      (∀ (l l2 : L) (ch ch2 : List (CTree L T)) (v v2 : T),
        CTree.contains W rep ⟨some l, ch, v⟩ ⟨some l2, ch2, v2⟩ =
          W l (rep l2)) := by
  intro L P T W rep
  refine ⟨fun ch v other => rfl, fun self ch v => ?_, fun l l2 ch ch2 v v2 => rfl⟩
  rcases self with ⟨loopSelf, chSelf, vSelf⟩
  cases loopSelf with
  | none => rfl
  | some l => rfl

/-- Claim C6: the raw-inset step translates every segment by `d` times its inset
direction (the normalised planar part of the cross product of the segment
direction with `+z`), preserving the segment count. -/
theorem C6_raw_inset_translation (segments : List Segment) (d : ℝ) :
    (insetSegments segments d).length = segments.length ∧
    ∀ i, i < segments.length →
      (insetSegments segments d).getD i default =
        ⟨(segments.getD i default).a +
            Vector2.scale d (getInsetDirection (segments.getD i default)),
          (segments.getD i default).b +
            Vector2.scale d (getInsetDirection (segments.getD i default))⟩ := by
  refine ⟨insetSegments_length segments d, fun i hi => ?_⟩
  have hi2 : i < (insetSegments segments d).length := by
    rw [insetSegments_length]; exact hi
  rw [insetSegments] at hi2 ⊢
  rw [List.getD_eq_getElem?_getD, List.getElem?_map,
    List.getElem?_eq_getElem hi, List.getD_eq_getElem?_getD,
    List.getElem?_eq_getElem hi]
  rfl

/-- Claim C5: with at least two input segments, `Shrinky::inset` fails with the
open-polygon error exactly when some consecutive pair of segments violates
adjacency within the tolerance. -/
theorem C5_openPolygon_iff (segments : List Segment) (d c : ℝ)
    (h2 : 2 ≤ segments.length) :
    shrinkyInset segments d c = .error ShrinkyMess.notClosedPolygon ↔
      ¬ isClosedPoly segments c := by
  rw [shrinkyInset, if_neg (by omega : ¬ segments.length < 2)]
  constructor
  · intro h
    by_cases hcl : isClosedPoly segments c
    · rw [createBisectors_ok segments c hcl] at h
      dsimp only [] at h
      split at h <;> simp at h
    · exact hcl
  · intro hcl
    rw [createBisectors_error segments c hcl]

/-- Claim C7: trim failure is soft — when the elongated pair has no intersection,
`attachSegments` leaves both segments unchanged and reports failure, and the
inset of any closed polygon with at least two segments completes without an
error no matter how the trims turn out. -/
theorem C7_trim_failure_soft :
    (∀ (first next : Segment) (elongation : ℝ),
      segmentSegmentIntersection (elongate first elongation false true)
          (elongate next elongation true false) = none →
        attachSegments first next elongation = (first, next, false)) ∧
    (∀ (segments : List Segment) (d c : ℝ), 2 ≤ segments.length →
      isClosedPoly segments c →
        ∃ out, shrinkyInset segments d c = .ok out) := by
  constructor
  · intro first next elongation h
    exact attach_of_none h
  · intro segments d c h2 hcl
    rw [shrinkyInset, if_neg (by omega : ¬ segments.length < 2),
      createBisectors_ok segments c hcl]
    dsimp only []
    split
    · exact ⟨_, rfl⟩
    · exact ⟨_, rfl⟩

/-- Claim C8 (amended): every bisector produced by `createBisectors` at a vertex
whose two adjacent inset directions do not cancel is exactly a unit vector,
hence unit within `10⁻⁹`. -/
theorem C8_bisector_unit (segments : List Segment) (tol : ℝ)
    (bs : List Vector2) (h : createBisectors segments tol = .ok bs)
    (i : ℕ) (hi : i < bs.length)
    (hnz : bisectorSumAt segments i ≠ ⟨0, 0⟩) :
    (bs.getD i default).magnitude = 1 ∧
      |(bs.getD i default).magnitude - 1| ≤ 1 / 1000000000 := by
  obtain ⟨hcl, rfl⟩ := createBisectors_ok_inv h
  rw [List.length_map, List.length_range] at hi
  have hg : ((List.range segments.length).map (bisectorAt segments)).getD i
      default = bisectorAt segments i := by
    rw [List.getD_eq_getElem?_getD, List.getElem?_map,
      List.getElem?_range hi]
    rfl
  rw [hg]
  have hunit : (bisectorAt segments i).magnitude = 1 :=
    magnitude_normalise_of_ne hnz
  rw [hunit]
  norm_num

/-- Claim C10: the inset pipeline emits exactly one output segment per surviving
(non-collapsed) segment — in particular, when no segment collapses the output
has exactly as many segments as the input, so no bridging segment is ever
inserted. -/
theorem C10_one_output_per_survivor (segments : List Segment) (d c : ℝ)
    (out : List Segment) (h : shrinkyInset segments d c = .ok out) :
    ∃ bs, createBisectors segments c = .ok bs ∧
      out.length = (removeCollapsedSegments segments bs d).length ∧
      (removeCollapsedSegments segments bs d = segments →
        out.length = segments.length) := by
  rw [shrinkyInset] at h
  by_cases hlen : segments.length < 2
  · rw [if_pos hlen] at h
    simp at h
  rw [if_neg hlen] at h
  cases hcb : createBisectors segments c with
  | error e => rw [hcb] at h; simp at h
  | ok bs =>
    rw [hcb] at h
    dsimp only [] at h
    refine ⟨bs, rfl, ?_⟩
    by_cases hrel : 0 < (removeCollapsedSegments segments bs d).length
    · rw [if_pos hrel] at h
      have hout : out = elongateAndTrimSegments
          (insetSegments (removeCollapsedSegments segments bs d) d)
          (d * 100) := (Except.ok.inj h).symm
      subst hout
      rw [elongateAndTrimSegments_length, insetSegments_length]
      exact ⟨rfl, fun hr => by rw [hr]⟩
    · rw [if_neg hrel] at h
      have hout : out = [] := (Except.ok.inj h).symm
      subst hout
      constructor
      · simp
        omega
      · intro hr
        rw [hr] at hrel
        omega

section sqrtFacts

theorem sqrt2_sq : Real.sqrt 2 ^ 2 = 2 := Real.sq_sqrt (by norm_num)

theorem sqrt2_pos : 0 < Real.sqrt 2 := Real.sqrt_pos.mpr (by norm_num)

theorem inv_sqrt2_sq : (1 / Real.sqrt 2) ^ 2 = 1 / 2 := by
  rw [div_pow, sqrt2_sq]
  norm_num

theorem sqrt3_sq : Real.sqrt 3 ^ 2 = 3 := Real.sq_sqrt (by norm_num)

theorem sqrt3_pos : 0 < Real.sqrt 3 := Real.sqrt_pos.mpr (by norm_num)

theorem sqrt3_gt : 1.7 < Real.sqrt 3 := by
  rw [show (1.7 : ℝ) = 1.7 from rfl]
  have h : (1.7 : ℝ) ^ 2 < 3 := by norm_num
  nlinarith [sqrt3_sq, sqrt3_pos]

theorem sqrt3_lt : Real.sqrt 3 < 1.8 := by
  nlinarith [sqrt3_sq, sqrt3_pos]

theorem normalise_zero : Vector2.normalise ⟨0, 0⟩ = ⟨0, 0⟩ := by
  rw [Vector2.normalise]
  norm_num

end sqrtFacts

section moreEvalLemmas

theorem ssi_none_of_neg (s1 s2 : Segment)
    (hd : Vector2.cross (s1.b - s1.a) (s2.b - s2.a) ≠ 0)
    (hneg : Vector2.cross (s2.a - s1.a) (s2.b - s2.a) *
      Vector2.cross (s1.b - s1.a) (s2.b - s2.a) < 0) :
    segmentSegmentIntersection s1 s2 = none := by
  rw [segmentSegmentIntersection]
  simp only [if_neg hd]
  have ht : Vector2.cross (s2.a - s1.a) (s2.b - s2.a) /
      Vector2.cross (s1.b - s1.a) (s2.b - s2.a) < 0 := by
    rcases mul_neg_iff.mp hneg with ⟨hp, hn⟩ | ⟨hn, hp⟩
    · exact div_neg_of_pos_of_neg hp hn
    · exact div_neg_of_neg_of_pos hn hp
  rw [if_neg]
  intro hc
  linarith [hc.1]

theorem not_edgeCollapse_antiparallel (segment : Segment) (b0 b1 : Vector2)
    (dist e : ℝ) (hunit : b0.x ^ 2 + b0.y ^ 2 = 1 ^ 2)
    (hx : b1.x = -b0.x) (hy : b1.y = -b0.y) :
    ¬ edgeCollapse segment b0 b1 dist e := by
  have hb1 : b1 = ⟨-b0.x, -b0.y⟩ := Vector2.ext hx hy
  subst hb1
  have h1 : ((⟨segment.a, segment.a + b0⟩ : Segment).b.x -
        (⟨segment.a, segment.a + b0⟩ : Segment).a.x) ^ 2 +
      ((⟨segment.a, segment.a + b0⟩ : Segment).b.y -
        (⟨segment.a, segment.a + b0⟩ : Segment).a.y) ^ 2 = 1 ^ 2 := by
    simpa using hunit
  have h2 : ((⟨segment.b, segment.b + ⟨-b0.x, -b0.y⟩⟩ : Segment).b.x -
        (⟨segment.b, segment.b + ⟨-b0.x, -b0.y⟩⟩ : Segment).a.x) ^ 2 +
      ((⟨segment.b, segment.b + ⟨-b0.x, -b0.y⟩⟩ : Segment).b.y -
        (⟨segment.b, segment.b + ⟨-b0.x, -b0.y⟩⟩ : Segment).a.y) ^ 2 = 1 ^ 2 := by
    simp only [Segment.b, Segment.a, Vector2.add_x, Vector2.add_y]
    ring_nf
    ring_nf at hunit
    linarith
  have hA := elongate_end_eval (⟨segment.a, segment.a + b0⟩ : Segment) e
    (by norm_num) h1
  have hB := elongate_start_eval
    (⟨segment.b, segment.b + ⟨-b0.x, -b0.y⟩⟩ : Segment) e (by norm_num) h2
  have hnone : segmentSegmentIntersection
      (elongate (⟨segment.a, segment.a + b0⟩ : Segment) e false true)
      (elongate (⟨segment.b, segment.b + ⟨-b0.x, -b0.y⟩⟩ : Segment) e true
        false) = none := by
    rw [hA, hB]
    apply ssi_none_of_cross_eq_zero
    simp only [Vector2.cross, Vector2.sub_x, Vector2.sub_y, Vector2.add_x,
      Vector2.add_y]
    ring
  apply not_edgeCollapse_of_attach_false
  rw [attach_of_none hnone]

end moreEvalLemmas

noncomputable section concreteInputs

/-- The clockwise 10x1 rectangle used in concrete runs. -/
def rectCW : List Segment := [⟨⟨0, 0⟩, ⟨0, 1⟩⟩, ⟨⟨0, 1⟩, ⟨10, 1⟩⟩, ⟨⟨10, 1⟩, ⟨10, 0⟩⟩, ⟨⟨10, 0⟩, ⟨0, 0⟩⟩]

/-- The counter-clockwise 10x10 square of scenario S1. -/
def sqCCW : List Segment := [⟨⟨0, 0⟩, ⟨10, 0⟩⟩, ⟨⟨10, 0⟩, ⟨10, 10⟩⟩, ⟨⟨10, 10⟩, ⟨0, 10⟩⟩, ⟨⟨0, 10⟩, ⟨0, 0⟩⟩]

/-- The clockwise (reversed) 10x10 square. -/
def sqCW : List Segment := [⟨⟨0, 0⟩, ⟨0, 10⟩⟩, ⟨⟨0, 10⟩, ⟨10, 10⟩⟩, ⟨⟨10, 10⟩, ⟨10, 0⟩⟩, ⟨⟨10, 0⟩, ⟨0, 0⟩⟩]

/-- The clockwise equilateral triangle of side 2 of scenario S2. -/
def triCW : List Segment := [⟨⟨0, 0⟩, ⟨1, Real.sqrt 3⟩⟩, ⟨⟨1, Real.sqrt 3⟩, ⟨2, 0⟩⟩, ⟨⟨2, 0⟩, ⟨0, 0⟩⟩]

/-- A degenerate closed polygon with a doubled-back spike edge. -/
def spikeQuad : List Segment := [⟨⟨0, 0⟩, ⟨10, 0⟩⟩, ⟨⟨10, 0⟩, ⟨10, 10⟩⟩, ⟨⟨10, 10⟩, ⟨10, 0⟩⟩, ⟨⟨10, 0⟩, ⟨0, 0⟩⟩]

/-- A two-segment open (non-closed) input. -/
def openSegs : List Segment := [⟨⟨0, 0⟩, ⟨10, 0⟩⟩, ⟨⟨5, 5⟩, ⟨0, 0⟩⟩]

theorem gidRect0 : getInsetDirection ⟨⟨0, 0⟩, ⟨0, 1⟩⟩ = ⟨1, 0⟩ := by
  rw [@getInsetDirection_eval ⟨⟨0, 0⟩, ⟨0, 1⟩⟩ 1 (by norm_num) (by norm_num)]
  ext <;> norm_num

theorem gidRect1 : getInsetDirection ⟨⟨0, 1⟩, ⟨10, 1⟩⟩ = ⟨0, -1⟩ := by
  rw [@getInsetDirection_eval ⟨⟨0, 1⟩, ⟨10, 1⟩⟩ 10 (by norm_num) (by norm_num)]
  ext <;> norm_num

theorem gidRect2 : getInsetDirection ⟨⟨10, 1⟩, ⟨10, 0⟩⟩ = ⟨-1, 0⟩ := by
  rw [@getInsetDirection_eval ⟨⟨10, 1⟩, ⟨10, 0⟩⟩ 1 (by norm_num) (by norm_num)]
  ext <;> norm_num

theorem gidRect3 : getInsetDirection ⟨⟨10, 0⟩, ⟨0, 0⟩⟩ = ⟨0, 1⟩ := by
  rw [@getInsetDirection_eval ⟨⟨10, 0⟩, ⟨0, 0⟩⟩ 10 (by norm_num) (by norm_num)]
  ext <;> norm_num

theorem gidSqA0 : getInsetDirection ⟨⟨0, 0⟩, ⟨10, 0⟩⟩ = ⟨0, -1⟩ := by
  rw [@getInsetDirection_eval ⟨⟨0, 0⟩, ⟨10, 0⟩⟩ 10 (by norm_num) (by norm_num)]
  ext <;> norm_num

theorem gidSqA1 : getInsetDirection ⟨⟨10, 0⟩, ⟨10, 10⟩⟩ = ⟨1, 0⟩ := by
  rw [@getInsetDirection_eval ⟨⟨10, 0⟩, ⟨10, 10⟩⟩ 10 (by norm_num) (by norm_num)]
  ext <;> norm_num

theorem gidSqA2 : getInsetDirection ⟨⟨10, 10⟩, ⟨0, 10⟩⟩ = ⟨0, 1⟩ := by
  rw [@getInsetDirection_eval ⟨⟨10, 10⟩, ⟨0, 10⟩⟩ 10 (by norm_num) (by norm_num)]
  ext <;> norm_num

theorem gidSqA3 : getInsetDirection ⟨⟨0, 10⟩, ⟨0, 0⟩⟩ = ⟨-1, 0⟩ := by
  rw [@getInsetDirection_eval ⟨⟨0, 10⟩, ⟨0, 0⟩⟩ 10 (by norm_num) (by norm_num)]
  ext <;> norm_num

theorem gidSqB0 : getInsetDirection ⟨⟨0, 0⟩, ⟨0, 10⟩⟩ = ⟨1, 0⟩ := by
  rw [@getInsetDirection_eval ⟨⟨0, 0⟩, ⟨0, 10⟩⟩ 10 (by norm_num) (by norm_num)]
  ext <;> norm_num

theorem gidSqB1 : getInsetDirection ⟨⟨0, 10⟩, ⟨10, 10⟩⟩ = ⟨0, -1⟩ := by
  rw [@getInsetDirection_eval ⟨⟨0, 10⟩, ⟨10, 10⟩⟩ 10 (by norm_num) (by norm_num)]
  ext <;> norm_num

theorem gidSqB2 : getInsetDirection ⟨⟨10, 10⟩, ⟨10, 0⟩⟩ = ⟨-1, 0⟩ := by
  rw [@getInsetDirection_eval ⟨⟨10, 10⟩, ⟨10, 0⟩⟩ 10 (by norm_num) (by norm_num)]
  ext <;> norm_num

theorem gidSqB3 : getInsetDirection ⟨⟨10, 0⟩, ⟨0, 0⟩⟩ = ⟨0, 1⟩ := by
  rw [@getInsetDirection_eval ⟨⟨10, 0⟩, ⟨0, 0⟩⟩ 10 (by norm_num) (by norm_num)]
  ext <;> norm_num

theorem gidSpike0 : getInsetDirection ⟨⟨0, 0⟩, ⟨10, 0⟩⟩ = ⟨0, -1⟩ := by
  rw [@getInsetDirection_eval ⟨⟨0, 0⟩, ⟨10, 0⟩⟩ 10 (by norm_num) (by norm_num)]
  ext <;> norm_num

theorem gidSpike1 : getInsetDirection ⟨⟨10, 0⟩, ⟨10, 10⟩⟩ = ⟨1, 0⟩ := by
  rw [@getInsetDirection_eval ⟨⟨10, 0⟩, ⟨10, 10⟩⟩ 10 (by norm_num) (by norm_num)]
  ext <;> norm_num

theorem gidSpike2 : getInsetDirection ⟨⟨10, 10⟩, ⟨10, 0⟩⟩ = ⟨-1, 0⟩ := by
  rw [@getInsetDirection_eval ⟨⟨10, 10⟩, ⟨10, 0⟩⟩ 10 (by norm_num) (by norm_num)]
  ext <;> norm_num

theorem gidSpike3 : getInsetDirection ⟨⟨10, 0⟩, ⟨0, 0⟩⟩ = ⟨0, 1⟩ := by
  rw [@getInsetDirection_eval ⟨⟨10, 0⟩, ⟨0, 0⟩⟩ 10 (by norm_num) (by norm_num)]
  ext <;> norm_num

theorem gidTri0 : getInsetDirection ⟨⟨0, 0⟩, ⟨1, Real.sqrt 3⟩⟩ = ⟨Real.sqrt 3 / 2, -(1 / 2)⟩ := by
  rw [@getInsetDirection_eval ⟨⟨0, 0⟩, ⟨1, Real.sqrt 3⟩⟩ 2 (by norm_num) (by norm_num [sqrt3_sq])]
  ext <;> norm_num [neg_div]

theorem gidTri1 : getInsetDirection ⟨⟨1, Real.sqrt 3⟩, ⟨2, 0⟩⟩ = ⟨-(Real.sqrt 3 / 2), -(1 / 2)⟩ := by
  rw [@getInsetDirection_eval ⟨⟨1, Real.sqrt 3⟩, ⟨2, 0⟩⟩ 2 (by norm_num) (by norm_num [sqrt3_sq])]
  ext <;> norm_num [neg_div]

theorem gidTri2 : getInsetDirection ⟨⟨2, 0⟩, ⟨0, 0⟩⟩ = ⟨0, 1⟩ := by
  rw [@getInsetDirection_eval ⟨⟨2, 0⟩, ⟨0, 0⟩⟩ 2 (by norm_num) (by norm_num [sqrt3_sq])]
  ext <;> norm_num [neg_div]

theorem rect_closed : isClosedPoly rectCW (3 / 10) := by
  intro i hi
  have hn : (rectCW).length = 4 := rfl
  rw [hn] at hi
  interval_cases i
  · rw [show (rectCW).getD (prevIdx (rectCW).length 0) default = ⟨⟨10, 0⟩, ⟨0, 0⟩⟩ from rfl,
      show (rectCW).getD 0 default = ⟨⟨0, 0⟩, ⟨0, 1⟩⟩ from rfl]
    norm_num [Vector2.sameSame]
  · rw [show (rectCW).getD (prevIdx (rectCW).length 1) default = ⟨⟨0, 0⟩, ⟨0, 1⟩⟩ from rfl,
      show (rectCW).getD 1 default = ⟨⟨0, 1⟩, ⟨10, 1⟩⟩ from rfl]
    norm_num [Vector2.sameSame]
  · rw [show (rectCW).getD (prevIdx (rectCW).length 2) default = ⟨⟨0, 1⟩, ⟨10, 1⟩⟩ from rfl,
      show (rectCW).getD 2 default = ⟨⟨10, 1⟩, ⟨10, 0⟩⟩ from rfl]
    norm_num [Vector2.sameSame]
  · rw [show (rectCW).getD (prevIdx (rectCW).length 3) default = ⟨⟨10, 1⟩, ⟨10, 0⟩⟩ from rfl,
      show (rectCW).getD 3 default = ⟨⟨10, 0⟩, ⟨0, 0⟩⟩ from rfl]
    norm_num [Vector2.sameSame]

theorem sqCCW_closed : isClosedPoly sqCCW (1 / 100) := by
  intro i hi
  have hn : (sqCCW).length = 4 := rfl
  rw [hn] at hi
  interval_cases i
  · rw [show (sqCCW).getD (prevIdx (sqCCW).length 0) default = ⟨⟨0, 10⟩, ⟨0, 0⟩⟩ from rfl,
      show (sqCCW).getD 0 default = ⟨⟨0, 0⟩, ⟨10, 0⟩⟩ from rfl]
    norm_num [Vector2.sameSame]
  · rw [show (sqCCW).getD (prevIdx (sqCCW).length 1) default = ⟨⟨0, 0⟩, ⟨10, 0⟩⟩ from rfl,
      show (sqCCW).getD 1 default = ⟨⟨10, 0⟩, ⟨10, 10⟩⟩ from rfl]
    norm_num [Vector2.sameSame]
  · rw [show (sqCCW).getD (prevIdx (sqCCW).length 2) default = ⟨⟨10, 0⟩, ⟨10, 10⟩⟩ from rfl,
      show (sqCCW).getD 2 default = ⟨⟨10, 10⟩, ⟨0, 10⟩⟩ from rfl]
    norm_num [Vector2.sameSame]
  · rw [show (sqCCW).getD (prevIdx (sqCCW).length 3) default = ⟨⟨10, 10⟩, ⟨0, 10⟩⟩ from rfl,
      show (sqCCW).getD 3 default = ⟨⟨0, 10⟩, ⟨0, 0⟩⟩ from rfl]
    norm_num [Vector2.sameSame]

theorem sqCW_closed : isClosedPoly sqCW (1 / 100) := by
  intro i hi
  have hn : (sqCW).length = 4 := rfl
  rw [hn] at hi
  interval_cases i
  · rw [show (sqCW).getD (prevIdx (sqCW).length 0) default = ⟨⟨10, 0⟩, ⟨0, 0⟩⟩ from rfl,
      show (sqCW).getD 0 default = ⟨⟨0, 0⟩, ⟨0, 10⟩⟩ from rfl]
    norm_num [Vector2.sameSame]
  · rw [show (sqCW).getD (prevIdx (sqCW).length 1) default = ⟨⟨0, 0⟩, ⟨0, 10⟩⟩ from rfl,
      show (sqCW).getD 1 default = ⟨⟨0, 10⟩, ⟨10, 10⟩⟩ from rfl]
    norm_num [Vector2.sameSame]
  · rw [show (sqCW).getD (prevIdx (sqCW).length 2) default = ⟨⟨0, 10⟩, ⟨10, 10⟩⟩ from rfl,
      show (sqCW).getD 2 default = ⟨⟨10, 10⟩, ⟨10, 0⟩⟩ from rfl]
    norm_num [Vector2.sameSame]
  · rw [show (sqCW).getD (prevIdx (sqCW).length 3) default = ⟨⟨10, 10⟩, ⟨10, 0⟩⟩ from rfl,
      show (sqCW).getD 3 default = ⟨⟨10, 0⟩, ⟨0, 0⟩⟩ from rfl]
    norm_num [Vector2.sameSame]

theorem tri_closed : isClosedPoly triCW (1 / 100) := by
  intro i hi
  have hn : (triCW).length = 3 := rfl
  rw [hn] at hi
  interval_cases i
  · rw [show (triCW).getD (prevIdx (triCW).length 0) default = ⟨⟨2, 0⟩, ⟨0, 0⟩⟩ from rfl,
      show (triCW).getD 0 default = ⟨⟨0, 0⟩, ⟨1, Real.sqrt 3⟩⟩ from rfl]
    norm_num [Vector2.sameSame]
  · rw [show (triCW).getD (prevIdx (triCW).length 1) default = ⟨⟨0, 0⟩, ⟨1, Real.sqrt 3⟩⟩ from rfl,
      show (triCW).getD 1 default = ⟨⟨1, Real.sqrt 3⟩, ⟨2, 0⟩⟩ from rfl]
    norm_num [Vector2.sameSame]
  · rw [show (triCW).getD (prevIdx (triCW).length 2) default = ⟨⟨1, Real.sqrt 3⟩, ⟨2, 0⟩⟩ from rfl,
      show (triCW).getD 2 default = ⟨⟨2, 0⟩, ⟨0, 0⟩⟩ from rfl]
    norm_num [Vector2.sameSame]

theorem spike_closed : isClosedPoly spikeQuad (1 / 100) := by
  intro i hi
  have hn : (spikeQuad).length = 4 := rfl
  rw [hn] at hi
  interval_cases i
  · rw [show (spikeQuad).getD (prevIdx (spikeQuad).length 0) default = ⟨⟨10, 0⟩, ⟨0, 0⟩⟩ from rfl,
      show (spikeQuad).getD 0 default = ⟨⟨0, 0⟩, ⟨10, 0⟩⟩ from rfl]
    norm_num [Vector2.sameSame]
  · rw [show (spikeQuad).getD (prevIdx (spikeQuad).length 1) default = ⟨⟨0, 0⟩, ⟨10, 0⟩⟩ from rfl,
      show (spikeQuad).getD 1 default = ⟨⟨10, 0⟩, ⟨10, 10⟩⟩ from rfl]
    norm_num [Vector2.sameSame]
  · rw [show (spikeQuad).getD (prevIdx (spikeQuad).length 2) default = ⟨⟨10, 0⟩, ⟨10, 10⟩⟩ from rfl,
      show (spikeQuad).getD 2 default = ⟨⟨10, 10⟩, ⟨10, 0⟩⟩ from rfl]
    norm_num [Vector2.sameSame]
  · rw [show (spikeQuad).getD (prevIdx (spikeQuad).length 3) default = ⟨⟨10, 10⟩, ⟨10, 0⟩⟩ from rfl,
      show (spikeQuad).getD 3 default = ⟨⟨10, 0⟩, ⟨0, 0⟩⟩ from rfl]
    norm_num [Vector2.sameSame]

theorem openSegs_not_closed : ¬ isClosedPoly openSegs (1 / 100) := by
  intro h
  have h1 := h 1 (by norm_num [openSegs])
  rw [show openSegs.getD (prevIdx openSegs.length 1) default = ⟨⟨0, 0⟩, ⟨10, 0⟩⟩ from rfl,
      show openSegs.getD 1 default = ⟨⟨5, 5⟩, ⟨0, 0⟩⟩ from rfl] at h1
  rw [Vector2.sameSame] at h1
  norm_num at h1

end concreteInputs

noncomputable section bisectorEvals

/-- The bisectors of `rectCW` (and of `sqCW`, which has the same corner
pattern). -/
def rectBis : List Vector2 := [⟨1 / Real.sqrt 2, 1 / Real.sqrt 2⟩, ⟨1 / Real.sqrt 2, -(1 / Real.sqrt 2)⟩, ⟨-(1 / Real.sqrt 2), -(1 / Real.sqrt 2)⟩, ⟨-(1 / Real.sqrt 2), 1 / Real.sqrt 2⟩]

/-- The bisectors of `sqCCW`: they point outward. -/
def sqABis : List Vector2 := [⟨-(1 / Real.sqrt 2), -(1 / Real.sqrt 2)⟩, ⟨1 / Real.sqrt 2, -(1 / Real.sqrt 2)⟩, ⟨1 / Real.sqrt 2, 1 / Real.sqrt 2⟩, ⟨-(1 / Real.sqrt 2), 1 / Real.sqrt 2⟩]

/-- The bisectors of `triCW`. -/
def triBis : List Vector2 := [⟨Real.sqrt 3 / 2, 1 / 2⟩, ⟨0, -1⟩, ⟨-(Real.sqrt 3 / 2), 1 / 2⟩]

/-- The bisectors of `spikeQuad`; the two at the doubled-back vertices are
zero. -/
def spikeBis : List Vector2 := [⟨0, 0⟩, ⟨1 / Real.sqrt 2, -(1 / Real.sqrt 2)⟩, ⟨0, 0⟩, ⟨-(1 / Real.sqrt 2), 1 / Real.sqrt 2⟩]

theorem bisRect0 : bisectorAt rectCW 0 = ⟨1 / Real.sqrt 2, 1 / Real.sqrt 2⟩ := by
  simp only [bisectorAt]
  rw [show prevIdx (rectCW).length 0 = 3 from rfl,
      show (rectCW).getD 0 default = ⟨⟨0, 0⟩, ⟨0, 1⟩⟩ from rfl,
      show (rectCW).getD 3 default = ⟨⟨10, 0⟩, ⟨0, 0⟩⟩ from rfl,
      gidRect0, gidRect3]
  rw [show ((⟨1, 0⟩ : Vector2) + ⟨0, 1⟩) = ⟨1, 1⟩ from by ext <;> norm_num]
  rw [@normalise_eval ⟨1, 1⟩ (Real.sqrt 2) sqrt2_pos.le (by norm_num [sqrt2_sq])]
  all_goals ext <;> norm_num [neg_div]

theorem bisRect1 : bisectorAt rectCW 1 = ⟨1 / Real.sqrt 2, -(1 / Real.sqrt 2)⟩ := by
  simp only [bisectorAt]
  rw [show prevIdx (rectCW).length 1 = 0 from rfl,
      show (rectCW).getD 1 default = ⟨⟨0, 1⟩, ⟨10, 1⟩⟩ from rfl,
      show (rectCW).getD 0 default = ⟨⟨0, 0⟩, ⟨0, 1⟩⟩ from rfl,
      gidRect1, gidRect0]
  rw [show ((⟨0, -1⟩ : Vector2) + ⟨1, 0⟩) = ⟨1, -1⟩ from by ext <;> norm_num]
  rw [@normalise_eval ⟨1, -1⟩ (Real.sqrt 2) sqrt2_pos.le (by norm_num [sqrt2_sq])]
  all_goals ext <;> norm_num [neg_div]

theorem bisRect2 : bisectorAt rectCW 2 = ⟨-(1 / Real.sqrt 2), -(1 / Real.sqrt 2)⟩ := by
  simp only [bisectorAt]
  rw [show prevIdx (rectCW).length 2 = 1 from rfl,
      show (rectCW).getD 2 default = ⟨⟨10, 1⟩, ⟨10, 0⟩⟩ from rfl,
      show (rectCW).getD 1 default = ⟨⟨0, 1⟩, ⟨10, 1⟩⟩ from rfl,
      gidRect2, gidRect1]
  rw [show ((⟨-1, 0⟩ : Vector2) + ⟨0, -1⟩) = ⟨-1, -1⟩ from by ext <;> norm_num]
  rw [@normalise_eval ⟨-1, -1⟩ (Real.sqrt 2) sqrt2_pos.le (by norm_num [sqrt2_sq])]
  all_goals ext <;> norm_num [neg_div]

theorem bisRect3 : bisectorAt rectCW 3 = ⟨-(1 / Real.sqrt 2), 1 / Real.sqrt 2⟩ := by
  simp only [bisectorAt]
  rw [show prevIdx (rectCW).length 3 = 2 from rfl,
      show (rectCW).getD 3 default = ⟨⟨10, 0⟩, ⟨0, 0⟩⟩ from rfl,
      show (rectCW).getD 2 default = ⟨⟨10, 1⟩, ⟨10, 0⟩⟩ from rfl,
      gidRect3, gidRect2]
  rw [show ((⟨0, 1⟩ : Vector2) + ⟨-1, 0⟩) = ⟨-1, 1⟩ from by ext <;> norm_num]
  rw [@normalise_eval ⟨-1, 1⟩ (Real.sqrt 2) sqrt2_pos.le (by norm_num [sqrt2_sq])]
  all_goals ext <;> norm_num [neg_div]

theorem bisSqA0 : bisectorAt sqCCW 0 = ⟨-(1 / Real.sqrt 2), -(1 / Real.sqrt 2)⟩ := by
  simp only [bisectorAt]
  rw [show prevIdx (sqCCW).length 0 = 3 from rfl,
      show (sqCCW).getD 0 default = ⟨⟨0, 0⟩, ⟨10, 0⟩⟩ from rfl,
      show (sqCCW).getD 3 default = ⟨⟨0, 10⟩, ⟨0, 0⟩⟩ from rfl,
      gidSqA0, gidSqA3]
  rw [show ((⟨0, -1⟩ : Vector2) + ⟨-1, 0⟩) = ⟨-1, -1⟩ from by ext <;> norm_num]
  rw [@normalise_eval ⟨-1, -1⟩ (Real.sqrt 2) sqrt2_pos.le (by norm_num [sqrt2_sq])]
  all_goals ext <;> norm_num [neg_div]

theorem bisSqA1 : bisectorAt sqCCW 1 = ⟨1 / Real.sqrt 2, -(1 / Real.sqrt 2)⟩ := by
  simp only [bisectorAt]
  rw [show prevIdx (sqCCW).length 1 = 0 from rfl,
      show (sqCCW).getD 1 default = ⟨⟨10, 0⟩, ⟨10, 10⟩⟩ from rfl,
      show (sqCCW).getD 0 default = ⟨⟨0, 0⟩, ⟨10, 0⟩⟩ from rfl,
      gidSqA1, gidSqA0]
  rw [show ((⟨1, 0⟩ : Vector2) + ⟨0, -1⟩) = ⟨1, -1⟩ from by ext <;> norm_num]
  rw [@normalise_eval ⟨1, -1⟩ (Real.sqrt 2) sqrt2_pos.le (by norm_num [sqrt2_sq])]
  all_goals ext <;> norm_num [neg_div]

theorem bisSqA2 : bisectorAt sqCCW 2 = ⟨1 / Real.sqrt 2, 1 / Real.sqrt 2⟩ := by
  simp only [bisectorAt]
  rw [show prevIdx (sqCCW).length 2 = 1 from rfl,
      show (sqCCW).getD 2 default = ⟨⟨10, 10⟩, ⟨0, 10⟩⟩ from rfl,
      show (sqCCW).getD 1 default = ⟨⟨10, 0⟩, ⟨10, 10⟩⟩ from rfl,
      gidSqA2, gidSqA1]
  rw [show ((⟨0, 1⟩ : Vector2) + ⟨1, 0⟩) = ⟨1, 1⟩ from by ext <;> norm_num]
  rw [@normalise_eval ⟨1, 1⟩ (Real.sqrt 2) sqrt2_pos.le (by norm_num [sqrt2_sq])]
  all_goals ext <;> norm_num [neg_div]

theorem bisSqA3 : bisectorAt sqCCW 3 = ⟨-(1 / Real.sqrt 2), 1 / Real.sqrt 2⟩ := by
  simp only [bisectorAt]
  rw [show prevIdx (sqCCW).length 3 = 2 from rfl,
      show (sqCCW).getD 3 default = ⟨⟨0, 10⟩, ⟨0, 0⟩⟩ from rfl,
      show (sqCCW).getD 2 default = ⟨⟨10, 10⟩, ⟨0, 10⟩⟩ from rfl,
      gidSqA3, gidSqA2]
  rw [show ((⟨-1, 0⟩ : Vector2) + ⟨0, 1⟩) = ⟨-1, 1⟩ from by ext <;> norm_num]
  rw [@normalise_eval ⟨-1, 1⟩ (Real.sqrt 2) sqrt2_pos.le (by norm_num [sqrt2_sq])]
  all_goals ext <;> norm_num [neg_div]

theorem bisSqB0 : bisectorAt sqCW 0 = ⟨1 / Real.sqrt 2, 1 / Real.sqrt 2⟩ := by
  simp only [bisectorAt]
  rw [show prevIdx (sqCW).length 0 = 3 from rfl,
      show (sqCW).getD 0 default = ⟨⟨0, 0⟩, ⟨0, 10⟩⟩ from rfl,
      show (sqCW).getD 3 default = ⟨⟨10, 0⟩, ⟨0, 0⟩⟩ from rfl,
      gidSqB0, gidSqB3]
  rw [show ((⟨1, 0⟩ : Vector2) + ⟨0, 1⟩) = ⟨1, 1⟩ from by ext <;> norm_num]
  rw [@normalise_eval ⟨1, 1⟩ (Real.sqrt 2) sqrt2_pos.le (by norm_num [sqrt2_sq])]
  all_goals ext <;> norm_num [neg_div]

theorem bisSqB1 : bisectorAt sqCW 1 = ⟨1 / Real.sqrt 2, -(1 / Real.sqrt 2)⟩ := by
  simp only [bisectorAt]
  rw [show prevIdx (sqCW).length 1 = 0 from rfl,
      show (sqCW).getD 1 default = ⟨⟨0, 10⟩, ⟨10, 10⟩⟩ from rfl,
      show (sqCW).getD 0 default = ⟨⟨0, 0⟩, ⟨0, 10⟩⟩ from rfl,
      gidSqB1, gidSqB0]
  rw [show ((⟨0, -1⟩ : Vector2) + ⟨1, 0⟩) = ⟨1, -1⟩ from by ext <;> norm_num]
  rw [@normalise_eval ⟨1, -1⟩ (Real.sqrt 2) sqrt2_pos.le (by norm_num [sqrt2_sq])]
  all_goals ext <;> norm_num [neg_div]

theorem bisSqB2 : bisectorAt sqCW 2 = ⟨-(1 / Real.sqrt 2), -(1 / Real.sqrt 2)⟩ := by
  simp only [bisectorAt]
  rw [show prevIdx (sqCW).length 2 = 1 from rfl,
      show (sqCW).getD 2 default = ⟨⟨10, 10⟩, ⟨10, 0⟩⟩ from rfl,
      show (sqCW).getD 1 default = ⟨⟨0, 10⟩, ⟨10, 10⟩⟩ from rfl,
      gidSqB2, gidSqB1]
  rw [show ((⟨-1, 0⟩ : Vector2) + ⟨0, -1⟩) = ⟨-1, -1⟩ from by ext <;> norm_num]
  rw [@normalise_eval ⟨-1, -1⟩ (Real.sqrt 2) sqrt2_pos.le (by norm_num [sqrt2_sq])]
  all_goals ext <;> norm_num [neg_div]

theorem bisSqB3 : bisectorAt sqCW 3 = ⟨-(1 / Real.sqrt 2), 1 / Real.sqrt 2⟩ := by
  simp only [bisectorAt]
  rw [show prevIdx (sqCW).length 3 = 2 from rfl,
      show (sqCW).getD 3 default = ⟨⟨10, 0⟩, ⟨0, 0⟩⟩ from rfl,
      show (sqCW).getD 2 default = ⟨⟨10, 10⟩, ⟨10, 0⟩⟩ from rfl,
      gidSqB3, gidSqB2]
  rw [show ((⟨0, 1⟩ : Vector2) + ⟨-1, 0⟩) = ⟨-1, 1⟩ from by ext <;> norm_num]
  rw [@normalise_eval ⟨-1, 1⟩ (Real.sqrt 2) sqrt2_pos.le (by norm_num [sqrt2_sq])]
  all_goals ext <;> norm_num [neg_div]

theorem bisSpike0 : bisectorAt spikeQuad 0 = ⟨0, 0⟩ := by
  simp only [bisectorAt]
  rw [show prevIdx (spikeQuad).length 0 = 3 from rfl,
      show (spikeQuad).getD 0 default = ⟨⟨0, 0⟩, ⟨10, 0⟩⟩ from rfl,
      show (spikeQuad).getD 3 default = ⟨⟨10, 0⟩, ⟨0, 0⟩⟩ from rfl,
      gidSpike0, gidSpike3]
  rw [show ((⟨0, -1⟩ : Vector2) + ⟨0, 1⟩) = ⟨0, 0⟩ from by ext <;> norm_num]
  exact normalise_zero

theorem bisSpike1 : bisectorAt spikeQuad 1 = ⟨1 / Real.sqrt 2, -(1 / Real.sqrt 2)⟩ := by
  simp only [bisectorAt]
  rw [show prevIdx (spikeQuad).length 1 = 0 from rfl,
      show (spikeQuad).getD 1 default = ⟨⟨10, 0⟩, ⟨10, 10⟩⟩ from rfl,
      show (spikeQuad).getD 0 default = ⟨⟨0, 0⟩, ⟨10, 0⟩⟩ from rfl,
      gidSpike1, gidSpike0]
  rw [show ((⟨1, 0⟩ : Vector2) + ⟨0, -1⟩) = ⟨1, -1⟩ from by ext <;> norm_num]
  rw [@normalise_eval ⟨1, -1⟩ (Real.sqrt 2) sqrt2_pos.le (by norm_num [sqrt2_sq])]
  all_goals ext <;> norm_num [neg_div]

theorem bisSpike2 : bisectorAt spikeQuad 2 = ⟨0, 0⟩ := by
  simp only [bisectorAt]
  rw [show prevIdx (spikeQuad).length 2 = 1 from rfl,
      show (spikeQuad).getD 2 default = ⟨⟨10, 10⟩, ⟨10, 0⟩⟩ from rfl,
      show (spikeQuad).getD 1 default = ⟨⟨10, 0⟩, ⟨10, 10⟩⟩ from rfl,
      gidSpike2, gidSpike1]
  rw [show ((⟨-1, 0⟩ : Vector2) + ⟨1, 0⟩) = ⟨0, 0⟩ from by ext <;> norm_num]
  exact normalise_zero

theorem bisSpike3 : bisectorAt spikeQuad 3 = ⟨-(1 / Real.sqrt 2), 1 / Real.sqrt 2⟩ := by
  simp only [bisectorAt]
  rw [show prevIdx (spikeQuad).length 3 = 2 from rfl,
      show (spikeQuad).getD 3 default = ⟨⟨10, 0⟩, ⟨0, 0⟩⟩ from rfl,
      show (spikeQuad).getD 2 default = ⟨⟨10, 10⟩, ⟨10, 0⟩⟩ from rfl,
      gidSpike3, gidSpike2]
  rw [show ((⟨0, 1⟩ : Vector2) + ⟨-1, 0⟩) = ⟨-1, 1⟩ from by ext <;> norm_num]
  rw [@normalise_eval ⟨-1, 1⟩ (Real.sqrt 2) sqrt2_pos.le (by norm_num [sqrt2_sq])]
  all_goals ext <;> norm_num [neg_div]

theorem bisTri0 : bisectorAt triCW 0 = ⟨Real.sqrt 3 / 2, 1 / 2⟩ := by
  simp only [bisectorAt]
  rw [show prevIdx (triCW).length 0 = 2 from rfl,
      show (triCW).getD 0 default = ⟨⟨0, 0⟩, ⟨1, Real.sqrt 3⟩⟩ from rfl,
      show (triCW).getD 2 default = ⟨⟨2, 0⟩, ⟨0, 0⟩⟩ from rfl,
      gidTri0, gidTri2]
  rw [show ((⟨Real.sqrt 3 / 2, -(1 / 2)⟩ : Vector2) + ⟨0, 1⟩) = ⟨Real.sqrt 3 / 2, 1 / 2⟩ from by ext <;> norm_num]
  rw [@normalise_eval ⟨Real.sqrt 3 / 2, 1 / 2⟩ 1 (by norm_num) (by norm_num [div_pow, sqrt3_sq])]
  all_goals ext <;> norm_num

theorem bisTri1 : bisectorAt triCW 1 = ⟨0, -1⟩ := by
  simp only [bisectorAt]
  rw [show prevIdx (triCW).length 1 = 0 from rfl,
      show (triCW).getD 1 default = ⟨⟨1, Real.sqrt 3⟩, ⟨2, 0⟩⟩ from rfl,
      show (triCW).getD 0 default = ⟨⟨0, 0⟩, ⟨1, Real.sqrt 3⟩⟩ from rfl,
      gidTri1, gidTri0]
  rw [show ((⟨-(Real.sqrt 3 / 2), -(1 / 2)⟩ : Vector2) + ⟨Real.sqrt 3 / 2, -(1 / 2)⟩) = ⟨0, -1⟩ from by ext <;> norm_num]
  rw [@normalise_eval ⟨0, -1⟩ 1 (by norm_num) (by norm_num [div_pow, sqrt3_sq])]
  all_goals ext <;> norm_num

theorem bisTri2 : bisectorAt triCW 2 = ⟨-(Real.sqrt 3 / 2), 1 / 2⟩ := by
  simp only [bisectorAt]
  rw [show prevIdx (triCW).length 2 = 1 from rfl,
      show (triCW).getD 2 default = ⟨⟨2, 0⟩, ⟨0, 0⟩⟩ from rfl,
      show (triCW).getD 1 default = ⟨⟨1, Real.sqrt 3⟩, ⟨2, 0⟩⟩ from rfl,
      gidTri2, gidTri1]
  rw [show ((⟨0, 1⟩ : Vector2) + ⟨-(Real.sqrt 3 / 2), -(1 / 2)⟩) = ⟨-(Real.sqrt 3 / 2), 1 / 2⟩ from by ext <;> norm_num]
  rw [@normalise_eval ⟨-(Real.sqrt 3 / 2), 1 / 2⟩ 1 (by norm_num) (by norm_num [div_pow, sqrt3_sq])]
  all_goals ext <;> norm_num

theorem rect_createBisectors : createBisectors rectCW (3 / 10) = .ok rectBis := by
  rw [createBisectors_ok rectCW (3 / 10) rect_closed]
  rw [show List.range rectCW.length = [0, 1, 2, 3] from rfl]
  simp only [List.map]
  rw [bisRect0, bisRect1, bisRect2, bisRect3]
  rfl

theorem sqCCW_createBisectors : createBisectors sqCCW (1 / 100) = .ok sqABis := by
  rw [createBisectors_ok sqCCW (1 / 100) sqCCW_closed]
  rw [show List.range sqCCW.length = [0, 1, 2, 3] from rfl]
  simp only [List.map]
  rw [bisSqA0, bisSqA1, bisSqA2, bisSqA3]
  rfl

theorem sqCW_createBisectors : createBisectors sqCW (1 / 100) = .ok rectBis := by
  rw [createBisectors_ok sqCW (1 / 100) sqCW_closed]
  rw [show List.range sqCW.length = [0, 1, 2, 3] from rfl]
  simp only [List.map]
  rw [bisSqB0, bisSqB1, bisSqB2, bisSqB3]
  rfl

theorem tri_createBisectors : createBisectors triCW (1 / 100) = .ok triBis := by
  rw [createBisectors_ok triCW (1 / 100) tri_closed]
  rw [show List.range triCW.length = [0, 1, 2] from rfl]
  simp only [List.map]
  rw [bisTri0, bisTri1, bisTri2]
  rfl

theorem spike_createBisectors : createBisectors spikeQuad (1 / 100) = .ok spikeBis := by
  rw [createBisectors_ok spikeQuad (1 / 100) spike_closed]
  rw [show List.range spikeQuad.length = [0, 1, 2, 3] from rfl]
  simp only [List.map]
  rw [bisSpike0, bisSpike1, bisSpike2, bisSpike3]
  rfl

end bisectorEvals

section collapseEvals

theorem sqrt3_cube : Real.sqrt 3 ^ 3 = 3 * Real.sqrt 3 := by
  rw [pow_succ, sqrt3_sq]

theorem tri_nc0 :
    ¬ edgeCollapse ⟨⟨0, 0⟩, ⟨1, Real.sqrt 3⟩⟩ ⟨-(Real.sqrt 3 / 2), 1 / 2⟩ ⟨0, -1⟩ 2 100 := by
  have hnone : segmentSegmentIntersection
      (elongate ⟨⟨0, 0⟩, ⟨-(Real.sqrt 3 / 2), 1 / 2⟩⟩ 100 false true)
      (elongate ⟨⟨1, Real.sqrt 3⟩, ⟨1, Real.sqrt 3 + -1⟩⟩ 100 true false) = none := by
    rw [@elongate_end_eval ⟨⟨0, 0⟩, ⟨-(Real.sqrt 3 / 2), 1 / 2⟩⟩ 100 1 (by norm_num)
        (by norm_num [div_pow, sqrt3_sq]),
      @elongate_start_eval ⟨⟨1, Real.sqrt 3⟩, ⟨1, Real.sqrt 3 + -1⟩⟩ 100 1 (by norm_num)
        (by norm_num [div_pow, sqrt3_sq])]
    apply ssi_none_of_neg
    · apply ne_of_gt
      simp only [Vector2.cross, Vector2.sub_x, Vector2.sub_y]
      nlinarith [sqrt3_pos, sqrt3_sq, sqrt3_cube, sqrt3_gt, sqrt3_lt]
    · simp only [Vector2.cross, Vector2.sub_x, Vector2.sub_y]
      nlinarith [sqrt3_pos, sqrt3_sq, sqrt3_cube, sqrt3_gt, sqrt3_lt]
  apply not_edgeCollapse_of_attach_false
  dsimp only
  rw [show ((⟨0, 0⟩ : Vector2) + ⟨-(Real.sqrt 3 / 2), 1 / 2⟩) = ⟨-(Real.sqrt 3 / 2), 1 / 2⟩ from by ext <;> norm_num,
      show ((⟨1, Real.sqrt 3⟩ : Vector2) + ⟨0, -1⟩) = ⟨1, Real.sqrt 3 + -1⟩ from by ext <;> norm_num]
  rw [attach_of_none hnone]

theorem tri_nc1 :
    ¬ edgeCollapse ⟨⟨1, Real.sqrt 3⟩, ⟨2, 0⟩⟩ ⟨Real.sqrt 3 / 2, 1 / 2⟩ ⟨-(Real.sqrt 3 / 2), 1 / 2⟩ 2 100 := by
  have hnone : segmentSegmentIntersection
      (elongate ⟨⟨1, Real.sqrt 3⟩, ⟨1 + Real.sqrt 3 / 2, Real.sqrt 3 + 1 / 2⟩⟩ 100 false true)
      (elongate ⟨⟨2, 0⟩, ⟨2 + -(Real.sqrt 3 / 2), 1 / 2⟩⟩ 100 true false) = none := by
    rw [@elongate_end_eval ⟨⟨1, Real.sqrt 3⟩, ⟨1 + Real.sqrt 3 / 2, Real.sqrt 3 + 1 / 2⟩⟩ 100 1 (by norm_num)
        (by norm_num [div_pow, sqrt3_sq]),
      @elongate_start_eval ⟨⟨2, 0⟩, ⟨2 + -(Real.sqrt 3 / 2), 1 / 2⟩⟩ 100 1 (by norm_num)
        (by norm_num [div_pow, sqrt3_sq])]
    apply ssi_none_of_neg
    · apply ne_of_gt
      simp only [Vector2.cross, Vector2.sub_x, Vector2.sub_y]
      nlinarith [sqrt3_pos, sqrt3_sq, sqrt3_cube, sqrt3_gt, sqrt3_lt]
    · simp only [Vector2.cross, Vector2.sub_x, Vector2.sub_y]
      nlinarith [sqrt3_pos, sqrt3_sq, sqrt3_cube, sqrt3_gt, sqrt3_lt]
  apply not_edgeCollapse_of_attach_false
  dsimp only
  rw [show ((⟨1, Real.sqrt 3⟩ : Vector2) + ⟨Real.sqrt 3 / 2, 1 / 2⟩) = ⟨1 + Real.sqrt 3 / 2, Real.sqrt 3 + 1 / 2⟩ from by ext <;> norm_num,
      show ((⟨2, 0⟩ : Vector2) + ⟨-(Real.sqrt 3 / 2), 1 / 2⟩) = ⟨2 + -(Real.sqrt 3 / 2), 1 / 2⟩ from by ext <;> norm_num]
  rw [attach_of_none hnone]

theorem tri_nc2 :
    ¬ edgeCollapse ⟨⟨2, 0⟩, ⟨0, 0⟩⟩ ⟨0, -1⟩ ⟨Real.sqrt 3 / 2, 1 / 2⟩ 2 100 := by
  have hnone : segmentSegmentIntersection
      (elongate ⟨⟨2, 0⟩, ⟨2, -1⟩⟩ 100 false true)
      (elongate ⟨⟨0, 0⟩, ⟨Real.sqrt 3 / 2, 1 / 2⟩⟩ 100 true false) = none := by
    rw [@elongate_end_eval ⟨⟨2, 0⟩, ⟨2, -1⟩⟩ 100 1 (by norm_num)
        (by norm_num [div_pow, sqrt3_sq]),
      @elongate_start_eval ⟨⟨0, 0⟩, ⟨Real.sqrt 3 / 2, 1 / 2⟩⟩ 100 1 (by norm_num)
        (by norm_num [div_pow, sqrt3_sq])]
    apply ssi_none_of_neg
    · apply ne_of_gt
      simp only [Vector2.cross, Vector2.sub_x, Vector2.sub_y]
      nlinarith [sqrt3_pos, sqrt3_sq, sqrt3_cube, sqrt3_gt, sqrt3_lt]
    · simp only [Vector2.cross, Vector2.sub_x, Vector2.sub_y]
      nlinarith [sqrt3_pos, sqrt3_sq, sqrt3_cube, sqrt3_gt, sqrt3_lt]
  apply not_edgeCollapse_of_attach_false
  dsimp only
  rw [show ((⟨2, 0⟩ : Vector2) + ⟨0, -1⟩) = ⟨2, -1⟩ from by ext <;> norm_num,
      show ((⟨0, 0⟩ : Vector2) + ⟨Real.sqrt 3 / 2, 1 / 2⟩) = ⟨Real.sqrt 3 / 2, 1 / 2⟩ from by ext <;> norm_num]
  rw [attach_of_none hnone]

end collapseEvals

section rcsEvals

theorem rect_rcs : removeCollapsedSegments rectCW rectBis (2 / 5) = rectCW := by
  have h0 : ¬ edgeCollapse (rectCW.getD 0 default) (rectBis.getD 3 default) (rectBis.getD 1 default) (2 / 5) 100 := by
    rw [show rectCW.getD 0 default = ⟨⟨0, 0⟩, ⟨0, 1⟩⟩ from rfl,
        show rectBis.getD 3 default = ⟨-(1 / Real.sqrt 2), 1 / Real.sqrt 2⟩ from rfl,
        show rectBis.getD 1 default = ⟨1 / Real.sqrt 2, -(1 / Real.sqrt 2)⟩ from rfl]
    exact not_edgeCollapse_antiparallel _ _ _ _ _ (by norm_num [inv_sqrt2_sq])
      (by norm_num) (by norm_num)
  have h1 : ¬ edgeCollapse (rectCW.getD 1 default) (rectBis.getD 0 default) (rectBis.getD 2 default) (2 / 5) 100 := by
    rw [show rectCW.getD 1 default = ⟨⟨0, 1⟩, ⟨10, 1⟩⟩ from rfl,
        show rectBis.getD 0 default = ⟨1 / Real.sqrt 2, 1 / Real.sqrt 2⟩ from rfl,
        show rectBis.getD 2 default = ⟨-(1 / Real.sqrt 2), -(1 / Real.sqrt 2)⟩ from rfl]
    exact not_edgeCollapse_antiparallel _ _ _ _ _ (by norm_num [inv_sqrt2_sq])
      (by norm_num) (by norm_num)
  have h2 : ¬ edgeCollapse (rectCW.getD 2 default) (rectBis.getD 1 default) (rectBis.getD 3 default) (2 / 5) 100 := by
    rw [show rectCW.getD 2 default = ⟨⟨10, 1⟩, ⟨10, 0⟩⟩ from rfl,
        show rectBis.getD 1 default = ⟨1 / Real.sqrt 2, -(1 / Real.sqrt 2)⟩ from rfl,
        show rectBis.getD 3 default = ⟨-(1 / Real.sqrt 2), 1 / Real.sqrt 2⟩ from rfl]
    exact not_edgeCollapse_antiparallel _ _ _ _ _ (by norm_num [inv_sqrt2_sq])
      (by norm_num) (by norm_num)
  have h3 : ¬ edgeCollapse (rectCW.getD 3 default) (rectBis.getD 2 default) (rectBis.getD 0 default) (2 / 5) 100 := by
    rw [show rectCW.getD 3 default = ⟨⟨10, 0⟩, ⟨0, 0⟩⟩ from rfl,
        show rectBis.getD 2 default = ⟨-(1 / Real.sqrt 2), -(1 / Real.sqrt 2)⟩ from rfl,
        show rectBis.getD 0 default = ⟨1 / Real.sqrt 2, 1 / Real.sqrt 2⟩ from rfl]
    exact not_edgeCollapse_antiparallel _ _ _ _ _ (by norm_num [inv_sqrt2_sq])
      (by norm_num) (by norm_num)
  rw [removeCollapsedSegments,
      show List.range rectCW.length = [0, 1, 2, 3] from rfl,
      show rectCW.length - 1 = 3 from rfl]
  simp only [rcsAux]
  simp only [show wrapSucc rectCW.length 3 = 0 from rfl,
      show wrapSucc rectCW.length 0 = 1 from rfl,
      show wrapSucc rectCW.length 1 = 2 from rfl,
      show wrapSucc rectCW.length 2 = 3 from rfl]
  rw [if_neg h0, if_neg h1, if_neg h2, if_neg h3]
  rfl

theorem sqCCW_rcs : removeCollapsedSegments sqCCW sqABis (1) = sqCCW := by
  have h0 : ¬ edgeCollapse (sqCCW.getD 0 default) (sqABis.getD 3 default) (sqABis.getD 1 default) (1) 100 := by
    rw [show sqCCW.getD 0 default = ⟨⟨0, 0⟩, ⟨10, 0⟩⟩ from rfl,
        show sqABis.getD 3 default = ⟨-(1 / Real.sqrt 2), 1 / Real.sqrt 2⟩ from rfl,
        show sqABis.getD 1 default = ⟨1 / Real.sqrt 2, -(1 / Real.sqrt 2)⟩ from rfl]
    exact not_edgeCollapse_antiparallel _ _ _ _ _ (by norm_num [inv_sqrt2_sq])
      (by norm_num) (by norm_num)
  have h1 : ¬ edgeCollapse (sqCCW.getD 1 default) (sqABis.getD 0 default) (sqABis.getD 2 default) (1) 100 := by
    rw [show sqCCW.getD 1 default = ⟨⟨10, 0⟩, ⟨10, 10⟩⟩ from rfl,
        show sqABis.getD 0 default = ⟨-(1 / Real.sqrt 2), -(1 / Real.sqrt 2)⟩ from rfl,
        show sqABis.getD 2 default = ⟨1 / Real.sqrt 2, 1 / Real.sqrt 2⟩ from rfl]
    exact not_edgeCollapse_antiparallel _ _ _ _ _ (by norm_num [inv_sqrt2_sq])
      (by norm_num) (by norm_num)
  have h2 : ¬ edgeCollapse (sqCCW.getD 2 default) (sqABis.getD 1 default) (sqABis.getD 3 default) (1) 100 := by
    rw [show sqCCW.getD 2 default = ⟨⟨10, 10⟩, ⟨0, 10⟩⟩ from rfl,
        show sqABis.getD 1 default = ⟨1 / Real.sqrt 2, -(1 / Real.sqrt 2)⟩ from rfl,
        show sqABis.getD 3 default = ⟨-(1 / Real.sqrt 2), 1 / Real.sqrt 2⟩ from rfl]
    exact not_edgeCollapse_antiparallel _ _ _ _ _ (by norm_num [inv_sqrt2_sq])
      (by norm_num) (by norm_num)
  have h3 : ¬ edgeCollapse (sqCCW.getD 3 default) (sqABis.getD 2 default) (sqABis.getD 0 default) (1) 100 := by
    rw [show sqCCW.getD 3 default = ⟨⟨0, 10⟩, ⟨0, 0⟩⟩ from rfl,
        show sqABis.getD 2 default = ⟨1 / Real.sqrt 2, 1 / Real.sqrt 2⟩ from rfl,
        show sqABis.getD 0 default = ⟨-(1 / Real.sqrt 2), -(1 / Real.sqrt 2)⟩ from rfl]
    exact not_edgeCollapse_antiparallel _ _ _ _ _ (by norm_num [inv_sqrt2_sq])
      (by norm_num) (by norm_num)
  rw [removeCollapsedSegments,
      show List.range sqCCW.length = [0, 1, 2, 3] from rfl,
      show sqCCW.length - 1 = 3 from rfl]
  simp only [rcsAux]
  simp only [show wrapSucc sqCCW.length 3 = 0 from rfl,
      show wrapSucc sqCCW.length 0 = 1 from rfl,
      show wrapSucc sqCCW.length 1 = 2 from rfl,
      show wrapSucc sqCCW.length 2 = 3 from rfl]
  rw [if_neg h0, if_neg h1, if_neg h2, if_neg h3]
  rfl

theorem sqCW_rcs : removeCollapsedSegments sqCW rectBis (1) = sqCW := by
  have h0 : ¬ edgeCollapse (sqCW.getD 0 default) (rectBis.getD 3 default) (rectBis.getD 1 default) (1) 100 := by
    rw [show sqCW.getD 0 default = ⟨⟨0, 0⟩, ⟨0, 10⟩⟩ from rfl,
        show rectBis.getD 3 default = ⟨-(1 / Real.sqrt 2), 1 / Real.sqrt 2⟩ from rfl,
        show rectBis.getD 1 default = ⟨1 / Real.sqrt 2, -(1 / Real.sqrt 2)⟩ from rfl]
    exact not_edgeCollapse_antiparallel _ _ _ _ _ (by norm_num [inv_sqrt2_sq])
      (by norm_num) (by norm_num)
  have h1 : ¬ edgeCollapse (sqCW.getD 1 default) (rectBis.getD 0 default) (rectBis.getD 2 default) (1) 100 := by
    rw [show sqCW.getD 1 default = ⟨⟨0, 10⟩, ⟨10, 10⟩⟩ from rfl,
        show rectBis.getD 0 default = ⟨1 / Real.sqrt 2, 1 / Real.sqrt 2⟩ from rfl,
        show rectBis.getD 2 default = ⟨-(1 / Real.sqrt 2), -(1 / Real.sqrt 2)⟩ from rfl]
    exact not_edgeCollapse_antiparallel _ _ _ _ _ (by norm_num [inv_sqrt2_sq])
      (by norm_num) (by norm_num)
  have h2 : ¬ edgeCollapse (sqCW.getD 2 default) (rectBis.getD 1 default) (rectBis.getD 3 default) (1) 100 := by
    rw [show sqCW.getD 2 default = ⟨⟨10, 10⟩, ⟨10, 0⟩⟩ from rfl,
        show rectBis.getD 1 default = ⟨1 / Real.sqrt 2, -(1 / Real.sqrt 2)⟩ from rfl,
        show rectBis.getD 3 default = ⟨-(1 / Real.sqrt 2), 1 / Real.sqrt 2⟩ from rfl]
    exact not_edgeCollapse_antiparallel _ _ _ _ _ (by norm_num [inv_sqrt2_sq])
      (by norm_num) (by norm_num)
  have h3 : ¬ edgeCollapse (sqCW.getD 3 default) (rectBis.getD 2 default) (rectBis.getD 0 default) (1) 100 := by
    rw [show sqCW.getD 3 default = ⟨⟨10, 0⟩, ⟨0, 0⟩⟩ from rfl,
        show rectBis.getD 2 default = ⟨-(1 / Real.sqrt 2), -(1 / Real.sqrt 2)⟩ from rfl,
        show rectBis.getD 0 default = ⟨1 / Real.sqrt 2, 1 / Real.sqrt 2⟩ from rfl]
    exact not_edgeCollapse_antiparallel _ _ _ _ _ (by norm_num [inv_sqrt2_sq])
      (by norm_num) (by norm_num)
  rw [removeCollapsedSegments,
      show List.range sqCW.length = [0, 1, 2, 3] from rfl,
      show sqCW.length - 1 = 3 from rfl]
  simp only [rcsAux]
  simp only [show wrapSucc sqCW.length 3 = 0 from rfl,
      show wrapSucc sqCW.length 0 = 1 from rfl,
      show wrapSucc sqCW.length 1 = 2 from rfl,
      show wrapSucc sqCW.length 2 = 3 from rfl]
  rw [if_neg h0, if_neg h1, if_neg h2, if_neg h3]
  rfl

theorem tri_rcs : removeCollapsedSegments triCW triBis 2 = triCW := by
  have h0 : ¬ edgeCollapse (triCW.getD 0 default) (triBis.getD 2 default) (triBis.getD 1 default) 2 100 := by
    rw [show triCW.getD 0 default = ⟨⟨0, 0⟩, ⟨1, Real.sqrt 3⟩⟩ from rfl,
        show triBis.getD 2 default = ⟨-(Real.sqrt 3 / 2), 1 / 2⟩ from rfl,
        show triBis.getD 1 default = ⟨0, -1⟩ from rfl]
    exact tri_nc0
  have h1 : ¬ edgeCollapse (triCW.getD 1 default) (triBis.getD 0 default) (triBis.getD 2 default) 2 100 := by
    rw [show triCW.getD 1 default = ⟨⟨1, Real.sqrt 3⟩, ⟨2, 0⟩⟩ from rfl,
        show triBis.getD 0 default = ⟨Real.sqrt 3 / 2, 1 / 2⟩ from rfl,
        show triBis.getD 2 default = ⟨-(Real.sqrt 3 / 2), 1 / 2⟩ from rfl]
    exact tri_nc1
  have h2 : ¬ edgeCollapse (triCW.getD 2 default) (triBis.getD 1 default) (triBis.getD 0 default) 2 100 := by
    rw [show triCW.getD 2 default = ⟨⟨2, 0⟩, ⟨0, 0⟩⟩ from rfl,
        show triBis.getD 1 default = ⟨0, -1⟩ from rfl,
        show triBis.getD 0 default = ⟨Real.sqrt 3 / 2, 1 / 2⟩ from rfl]
    exact tri_nc2
  rw [removeCollapsedSegments,
      show List.range triCW.length = [0, 1, 2] from rfl,
      show triCW.length - 1 = 2 from rfl]
  simp only [rcsAux]
  simp only [show wrapSucc triCW.length 2 = 0 from rfl,
      show wrapSucc triCW.length 0 = 1 from rfl,
      show wrapSucc triCW.length 1 = 2 from rfl]
  rw [if_neg h0, if_neg h1, if_neg h2]
  rfl

end rcsEvals

noncomputable section trimEvals

theorem rect_insets : insetSegments rectCW (2 / 5) = [⟨⟨2/5, 0⟩, ⟨2/5, 1⟩⟩, ⟨⟨0, 3/5⟩, ⟨10, 3/5⟩⟩, ⟨⟨48/5, 1⟩, ⟨48/5, 0⟩⟩, ⟨⟨10, 2/5⟩, ⟨0, 2/5⟩⟩] := by
  rw [insetSegments, show rectCW = [⟨⟨0, 0⟩, ⟨0, 1⟩⟩, ⟨⟨0, 1⟩, ⟨10, 1⟩⟩, ⟨⟨10, 1⟩, ⟨10, 0⟩⟩, ⟨⟨10, 0⟩, ⟨0, 0⟩⟩] from rfl]
  simp only [List.map_cons, List.map_nil, gidRect0, gidRect1, gidRect2, gidRect3]
  rw [
      show ((⟨0, 0⟩ : Vector2) + Vector2.scale (2 / 5) ⟨1, 0⟩) = ⟨2/5, 0⟩ from by ext <;> simp only [Vector2.add_x, Vector2.add_y, Vector2.scale_x, Vector2.scale_y] <;> ring,
      show ((⟨0, 1⟩ : Vector2) + Vector2.scale (2 / 5) ⟨1, 0⟩) = ⟨2/5, 1⟩ from by ext <;> simp only [Vector2.add_x, Vector2.add_y, Vector2.scale_x, Vector2.scale_y] <;> ring,
      show ((⟨0, 1⟩ : Vector2) + Vector2.scale (2 / 5) ⟨0, -1⟩) = ⟨0, 3/5⟩ from by ext <;> simp only [Vector2.add_x, Vector2.add_y, Vector2.scale_x, Vector2.scale_y] <;> ring,
      show ((⟨10, 1⟩ : Vector2) + Vector2.scale (2 / 5) ⟨0, -1⟩) = ⟨10, 3/5⟩ from by ext <;> simp only [Vector2.add_x, Vector2.add_y, Vector2.scale_x, Vector2.scale_y] <;> ring,
      show ((⟨10, 1⟩ : Vector2) + Vector2.scale (2 / 5) ⟨-1, 0⟩) = ⟨48/5, 1⟩ from by ext <;> simp only [Vector2.add_x, Vector2.add_y, Vector2.scale_x, Vector2.scale_y] <;> ring,
      show ((⟨10, 0⟩ : Vector2) + Vector2.scale (2 / 5) ⟨-1, 0⟩) = ⟨48/5, 0⟩ from by ext <;> simp only [Vector2.add_x, Vector2.add_y, Vector2.scale_x, Vector2.scale_y] <;> ring,
      show ((⟨10, 0⟩ : Vector2) + Vector2.scale (2 / 5) ⟨0, 1⟩) = ⟨10, 2/5⟩ from by ext <;> simp only [Vector2.add_x, Vector2.add_y, Vector2.scale_x, Vector2.scale_y] <;> ring,
      show ((⟨0, 0⟩ : Vector2) + Vector2.scale (2 / 5) ⟨0, 1⟩) = ⟨0, 2/5⟩ from by ext <;> simp only [Vector2.add_x, Vector2.add_y, Vector2.scale_x, Vector2.scale_y] <;> ring]

theorem sqCCW_insets : insetSegments sqCCW (1) = [⟨⟨0, -1⟩, ⟨10, -1⟩⟩, ⟨⟨11, 0⟩, ⟨11, 10⟩⟩, ⟨⟨10, 11⟩, ⟨0, 11⟩⟩, ⟨⟨-1, 10⟩, ⟨-1, 0⟩⟩] := by
  rw [insetSegments, show sqCCW = [⟨⟨0, 0⟩, ⟨10, 0⟩⟩, ⟨⟨10, 0⟩, ⟨10, 10⟩⟩, ⟨⟨10, 10⟩, ⟨0, 10⟩⟩, ⟨⟨0, 10⟩, ⟨0, 0⟩⟩] from rfl]
  simp only [List.map_cons, List.map_nil, gidSqA0, gidSqA1, gidSqA2, gidSqA3]
  rw [
      show ((⟨0, 0⟩ : Vector2) + Vector2.scale (1) ⟨0, -1⟩) = ⟨0, -1⟩ from by ext <;> simp only [Vector2.add_x, Vector2.add_y, Vector2.scale_x, Vector2.scale_y] <;> ring,
      show ((⟨10, 0⟩ : Vector2) + Vector2.scale (1) ⟨0, -1⟩) = ⟨10, -1⟩ from by ext <;> simp only [Vector2.add_x, Vector2.add_y, Vector2.scale_x, Vector2.scale_y] <;> ring,
      show ((⟨10, 0⟩ : Vector2) + Vector2.scale (1) ⟨1, 0⟩) = ⟨11, 0⟩ from by ext <;> simp only [Vector2.add_x, Vector2.add_y, Vector2.scale_x, Vector2.scale_y] <;> ring,
      show ((⟨10, 10⟩ : Vector2) + Vector2.scale (1) ⟨1, 0⟩) = ⟨11, 10⟩ from by ext <;> simp only [Vector2.add_x, Vector2.add_y, Vector2.scale_x, Vector2.scale_y] <;> ring,
      show ((⟨10, 10⟩ : Vector2) + Vector2.scale (1) ⟨0, 1⟩) = ⟨10, 11⟩ from by ext <;> simp only [Vector2.add_x, Vector2.add_y, Vector2.scale_x, Vector2.scale_y] <;> ring,
      show ((⟨0, 10⟩ : Vector2) + Vector2.scale (1) ⟨0, 1⟩) = ⟨0, 11⟩ from by ext <;> simp only [Vector2.add_x, Vector2.add_y, Vector2.scale_x, Vector2.scale_y] <;> ring,
      show ((⟨0, 10⟩ : Vector2) + Vector2.scale (1) ⟨-1, 0⟩) = ⟨-1, 10⟩ from by ext <;> simp only [Vector2.add_x, Vector2.add_y, Vector2.scale_x, Vector2.scale_y] <;> ring,
      show ((⟨0, 0⟩ : Vector2) + Vector2.scale (1) ⟨-1, 0⟩) = ⟨-1, 0⟩ from by ext <;> simp only [Vector2.add_x, Vector2.add_y, Vector2.scale_x, Vector2.scale_y] <;> ring]

theorem sqCW_insets : insetSegments sqCW (1) = [⟨⟨1, 0⟩, ⟨1, 10⟩⟩, ⟨⟨0, 9⟩, ⟨10, 9⟩⟩, ⟨⟨9, 10⟩, ⟨9, 0⟩⟩, ⟨⟨10, 1⟩, ⟨0, 1⟩⟩] := by
  rw [insetSegments, show sqCW = [⟨⟨0, 0⟩, ⟨0, 10⟩⟩, ⟨⟨0, 10⟩, ⟨10, 10⟩⟩, ⟨⟨10, 10⟩, ⟨10, 0⟩⟩, ⟨⟨10, 0⟩, ⟨0, 0⟩⟩] from rfl]
  simp only [List.map_cons, List.map_nil, gidSqB0, gidSqB1, gidSqB2, gidSqB3]
  rw [
      show ((⟨0, 0⟩ : Vector2) + Vector2.scale (1) ⟨1, 0⟩) = ⟨1, 0⟩ from by ext <;> simp only [Vector2.add_x, Vector2.add_y, Vector2.scale_x, Vector2.scale_y] <;> ring,
      show ((⟨0, 10⟩ : Vector2) + Vector2.scale (1) ⟨1, 0⟩) = ⟨1, 10⟩ from by ext <;> simp only [Vector2.add_x, Vector2.add_y, Vector2.scale_x, Vector2.scale_y] <;> ring,
      show ((⟨0, 10⟩ : Vector2) + Vector2.scale (1) ⟨0, -1⟩) = ⟨0, 9⟩ from by ext <;> simp only [Vector2.add_x, Vector2.add_y, Vector2.scale_x, Vector2.scale_y] <;> ring,
      show ((⟨10, 10⟩ : Vector2) + Vector2.scale (1) ⟨0, -1⟩) = ⟨10, 9⟩ from by ext <;> simp only [Vector2.add_x, Vector2.add_y, Vector2.scale_x, Vector2.scale_y] <;> ring,
      show ((⟨10, 10⟩ : Vector2) + Vector2.scale (1) ⟨-1, 0⟩) = ⟨9, 10⟩ from by ext <;> simp only [Vector2.add_x, Vector2.add_y, Vector2.scale_x, Vector2.scale_y] <;> ring,
      show ((⟨10, 0⟩ : Vector2) + Vector2.scale (1) ⟨-1, 0⟩) = ⟨9, 0⟩ from by ext <;> simp only [Vector2.add_x, Vector2.add_y, Vector2.scale_x, Vector2.scale_y] <;> ring,
      show ((⟨10, 0⟩ : Vector2) + Vector2.scale (1) ⟨0, 1⟩) = ⟨10, 1⟩ from by ext <;> simp only [Vector2.add_x, Vector2.add_y, Vector2.scale_x, Vector2.scale_y] <;> ring,
      show ((⟨0, 0⟩ : Vector2) + Vector2.scale (1) ⟨0, 1⟩) = ⟨0, 1⟩ from by ext <;> simp only [Vector2.add_x, Vector2.add_y, Vector2.scale_x, Vector2.scale_y] <;> ring]

theorem tri_insets : insetSegments triCW (2) = [⟨⟨Real.sqrt 3, -1⟩, ⟨1 + Real.sqrt 3, Real.sqrt 3 - 1⟩⟩, ⟨⟨1 - Real.sqrt 3, Real.sqrt 3 - 1⟩, ⟨2 - Real.sqrt 3, -1⟩⟩, ⟨⟨2, 2⟩, ⟨0, 2⟩⟩] := by
  rw [insetSegments, show triCW = [⟨⟨0, 0⟩, ⟨1, Real.sqrt 3⟩⟩, ⟨⟨1, Real.sqrt 3⟩, ⟨2, 0⟩⟩, ⟨⟨2, 0⟩, ⟨0, 0⟩⟩] from rfl]
  simp only [List.map_cons, List.map_nil, gidTri0, gidTri1, gidTri2]
  rw [
      show ((⟨0, 0⟩ : Vector2) + Vector2.scale (2) ⟨Real.sqrt 3 / 2, -(1 / 2)⟩) = ⟨Real.sqrt 3, -1⟩ from by ext <;> simp only [Vector2.add_x, Vector2.add_y, Vector2.scale_x, Vector2.scale_y] <;> ring,
      show ((⟨1, Real.sqrt 3⟩ : Vector2) + Vector2.scale (2) ⟨Real.sqrt 3 / 2, -(1 / 2)⟩) = ⟨1 + Real.sqrt 3, Real.sqrt 3 - 1⟩ from by ext <;> simp only [Vector2.add_x, Vector2.add_y, Vector2.scale_x, Vector2.scale_y] <;> ring,
      show ((⟨1, Real.sqrt 3⟩ : Vector2) + Vector2.scale (2) ⟨-(Real.sqrt 3 / 2), -(1 / 2)⟩) = ⟨1 - Real.sqrt 3, Real.sqrt 3 - 1⟩ from by ext <;> simp only [Vector2.add_x, Vector2.add_y, Vector2.scale_x, Vector2.scale_y] <;> ring,
      show ((⟨2, 0⟩ : Vector2) + Vector2.scale (2) ⟨-(Real.sqrt 3 / 2), -(1 / 2)⟩) = ⟨2 - Real.sqrt 3, -1⟩ from by ext <;> simp only [Vector2.add_x, Vector2.add_y, Vector2.scale_x, Vector2.scale_y] <;> ring,
      show ((⟨2, 0⟩ : Vector2) + Vector2.scale (2) ⟨0, 1⟩) = ⟨2, 2⟩ from by ext <;> simp only [Vector2.add_x, Vector2.add_y, Vector2.scale_x, Vector2.scale_y] <;> ring,
      show ((⟨0, 0⟩ : Vector2) + Vector2.scale (2) ⟨0, 1⟩) = ⟨0, 2⟩ from by ext <;> simp only [Vector2.add_x, Vector2.add_y, Vector2.scale_x, Vector2.scale_y] <;> ring]

end trimEvals

section attachEvals

theorem trimRect0 : attachSegments ⟨⟨10, 2/5⟩, ⟨0, 2/5⟩⟩ ⟨⟨2/5, 0⟩, ⟨2/5, 1⟩⟩ 40 =
    (⟨⟨10, 2/5⟩, ⟨2/5, 2/5⟩⟩, ⟨⟨2/5, 2/5⟩, ⟨2/5, 1⟩⟩, true) := by
  have hssi : segmentSegmentIntersection
      (elongate ⟨⟨10, 2/5⟩, ⟨0, 2/5⟩⟩ 40 false true)
      (elongate ⟨⟨2/5, 0⟩, ⟨2/5, 1⟩⟩ 40 true false) = some ⟨2/5, 2/5⟩ := by
    rw [@elongate_end_eval ⟨⟨10, 2/5⟩, ⟨0, 2/5⟩⟩ 40 (10) (by norm_num) (by norm_num),
        @elongate_start_eval ⟨⟨2/5, 0⟩, ⟨2/5, 1⟩⟩ 40 (1) (by norm_num) (by norm_num)]
    rw [ssi_eval _ _ (24/125) (202/205) (by norm_num [Vector2.cross])
        (by norm_num [Vector2.cross]) (by norm_num [Vector2.cross])]
    rw [if_pos (by norm_num)]
    congr 1
    ext <;> norm_num [Vector2.scale]
  rw [attach_of_some hssi]

theorem trimRect1 : attachSegments ⟨⟨2/5, 2/5⟩, ⟨2/5, 1⟩⟩ ⟨⟨0, 3/5⟩, ⟨10, 3/5⟩⟩ 40 =
    (⟨⟨2/5, 2/5⟩, ⟨2/5, 3/5⟩⟩, ⟨⟨2/5, 3/5⟩, ⟨10, 3/5⟩⟩, true) := by
  have hssi : segmentSegmentIntersection
      (elongate ⟨⟨2/5, 2/5⟩, ⟨2/5, 1⟩⟩ 40 false true)
      (elongate ⟨⟨0, 3/5⟩, ⟨10, 3/5⟩⟩ 40 true false) = some ⟨2/5, 3/5⟩ := by
    rw [@elongate_end_eval ⟨⟨2/5, 2/5⟩, ⟨2/5, 1⟩⟩ 40 (3/5) (by norm_num) (by norm_num),
        @elongate_start_eval ⟨⟨0, 3/5⟩, ⟨10, 3/5⟩⟩ 40 (10) (by norm_num) (by norm_num)]
    rw [ssi_eval _ _ (1/203) (101/125) (by norm_num [Vector2.cross])
        (by norm_num [Vector2.cross]) (by norm_num [Vector2.cross])]
    rw [if_pos (by norm_num)]
    congr 1
    ext <;> norm_num [Vector2.scale]
  rw [attach_of_some hssi]

theorem trimRect2 : attachSegments ⟨⟨2/5, 3/5⟩, ⟨10, 3/5⟩⟩ ⟨⟨48/5, 1⟩, ⟨48/5, 0⟩⟩ 40 =
    (⟨⟨2/5, 3/5⟩, ⟨48/5, 3/5⟩⟩, ⟨⟨48/5, 3/5⟩, ⟨48/5, 0⟩⟩, true) := by
  have hssi : segmentSegmentIntersection
      (elongate ⟨⟨2/5, 3/5⟩, ⟨10, 3/5⟩⟩ 40 false true)
      (elongate ⟨⟨48/5, 1⟩, ⟨48/5, 0⟩⟩ 40 true false) = some ⟨48/5, 3/5⟩ := by
    rw [@elongate_end_eval ⟨⟨2/5, 3/5⟩, ⟨10, 3/5⟩⟩ 40 (48/5) (by norm_num) (by norm_num),
        @elongate_start_eval ⟨⟨48/5, 1⟩, ⟨48/5, 0⟩⟩ 40 (1) (by norm_num) (by norm_num)]
    rw [ssi_eval _ _ (23/124) (202/205) (by norm_num [Vector2.cross])
        (by norm_num [Vector2.cross]) (by norm_num [Vector2.cross])]
    rw [if_pos (by norm_num)]
    congr 1
    ext <;> norm_num [Vector2.scale]
  rw [attach_of_some hssi]

theorem trimRect3 : attachSegments ⟨⟨48/5, 3/5⟩, ⟨48/5, 0⟩⟩ ⟨⟨10, 2/5⟩, ⟨2/5, 2/5⟩⟩ 40 =
    (⟨⟨48/5, 3/5⟩, ⟨48/5, 2/5⟩⟩, ⟨⟨48/5, 2/5⟩, ⟨2/5, 2/5⟩⟩, true) := by
  have hssi : segmentSegmentIntersection
      (elongate ⟨⟨48/5, 3/5⟩, ⟨48/5, 0⟩⟩ 40 false true)
      (elongate ⟨⟨10, 2/5⟩, ⟨2/5, 2/5⟩⟩ 40 true false) = some ⟨48/5, 2/5⟩ := by
    rw [@elongate_end_eval ⟨⟨48/5, 3/5⟩, ⟨48/5, 0⟩⟩ 40 (3/5) (by norm_num) (by norm_num),
        @elongate_start_eval ⟨⟨10, 2/5⟩, ⟨2/5, 2/5⟩⟩ 40 (48/5) (by norm_num) (by norm_num)]
    rw [ssi_eval _ _ (1/203) (101/124) (by norm_num [Vector2.cross])
        (by norm_num [Vector2.cross]) (by norm_num [Vector2.cross])]
    rw [if_pos (by norm_num)]
    congr 1
    ext <;> norm_num [Vector2.scale]
  rw [attach_of_some hssi]

theorem trimSqA0 : attachSegments ⟨⟨-1, 10⟩, ⟨-1, 0⟩⟩ ⟨⟨0, -1⟩, ⟨10, -1⟩⟩ 100 =
    (⟨⟨-1, 10⟩, ⟨-1, -1⟩⟩, ⟨⟨-1, -1⟩, ⟨10, -1⟩⟩, true) := by
  have hssi : segmentSegmentIntersection
      (elongate ⟨⟨-1, 10⟩, ⟨-1, 0⟩⟩ 100 false true)
      (elongate ⟨⟨0, -1⟩, ⟨10, -1⟩⟩ 100 true false) = some ⟨-1, -1⟩ := by
    rw [@elongate_end_eval ⟨⟨-1, 10⟩, ⟨-1, 0⟩⟩ 100 (10) (by norm_num) (by norm_num),
        @elongate_start_eval ⟨⟨0, -1⟩, ⟨10, -1⟩⟩ 100 (10) (by norm_num) (by norm_num)]
    rw [ssi_eval _ _ (1/10) (9/10) (by norm_num [Vector2.cross])
        (by norm_num [Vector2.cross]) (by norm_num [Vector2.cross])]
    rw [if_pos (by norm_num)]
    congr 1
    ext <;> norm_num [Vector2.scale]
  rw [attach_of_some hssi]

theorem trimSqA1 : attachSegments ⟨⟨-1, -1⟩, ⟨10, -1⟩⟩ ⟨⟨11, 0⟩, ⟨11, 10⟩⟩ 100 =
    (⟨⟨-1, -1⟩, ⟨11, -1⟩⟩, ⟨⟨11, -1⟩, ⟨11, 10⟩⟩, true) := by
  have hssi : segmentSegmentIntersection
      (elongate ⟨⟨-1, -1⟩, ⟨10, -1⟩⟩ 100 false true)
      (elongate ⟨⟨11, 0⟩, ⟨11, 10⟩⟩ 100 true false) = some ⟨11, -1⟩ := by
    rw [@elongate_end_eval ⟨⟨-1, -1⟩, ⟨10, -1⟩⟩ 100 (11) (by norm_num) (by norm_num),
        @elongate_start_eval ⟨⟨11, 0⟩, ⟨11, 10⟩⟩ 100 (10) (by norm_num) (by norm_num)]
    rw [ssi_eval _ _ (4/37) (9/10) (by norm_num [Vector2.cross])
        (by norm_num [Vector2.cross]) (by norm_num [Vector2.cross])]
    rw [if_pos (by norm_num)]
    congr 1
    ext <;> norm_num [Vector2.scale]
  rw [attach_of_some hssi]

theorem trimSqA2 : attachSegments ⟨⟨11, -1⟩, ⟨11, 10⟩⟩ ⟨⟨10, 11⟩, ⟨0, 11⟩⟩ 100 =
    (⟨⟨11, -1⟩, ⟨11, 11⟩⟩, ⟨⟨11, 11⟩, ⟨0, 11⟩⟩, true) := by
  have hssi : segmentSegmentIntersection
      (elongate ⟨⟨11, -1⟩, ⟨11, 10⟩⟩ 100 false true)
      (elongate ⟨⟨10, 11⟩, ⟨0, 11⟩⟩ 100 true false) = some ⟨11, 11⟩ := by
    rw [@elongate_end_eval ⟨⟨11, -1⟩, ⟨11, 10⟩⟩ 100 (11) (by norm_num) (by norm_num),
        @elongate_start_eval ⟨⟨10, 11⟩, ⟨0, 11⟩⟩ 100 (10) (by norm_num) (by norm_num)]
    rw [ssi_eval _ _ (4/37) (9/10) (by norm_num [Vector2.cross])
        (by norm_num [Vector2.cross]) (by norm_num [Vector2.cross])]
    rw [if_pos (by norm_num)]
    congr 1
    ext <;> norm_num [Vector2.scale]
  rw [attach_of_some hssi]

theorem trimSqA3 : attachSegments ⟨⟨11, 11⟩, ⟨0, 11⟩⟩ ⟨⟨-1, 10⟩, ⟨-1, -1⟩⟩ 100 =
    (⟨⟨11, 11⟩, ⟨-1, 11⟩⟩, ⟨⟨-1, 11⟩, ⟨-1, -1⟩⟩, true) := by
  have hssi : segmentSegmentIntersection
      (elongate ⟨⟨11, 11⟩, ⟨0, 11⟩⟩ 100 false true)
      (elongate ⟨⟨-1, 10⟩, ⟨-1, -1⟩⟩ 100 true false) = some ⟨-1, 11⟩ := by
    rw [@elongate_end_eval ⟨⟨11, 11⟩, ⟨0, 11⟩⟩ 100 (11) (by norm_num) (by norm_num),
        @elongate_start_eval ⟨⟨-1, 10⟩, ⟨-1, -1⟩⟩ 100 (11) (by norm_num) (by norm_num)]
    rw [ssi_eval _ _ (4/37) (33/37) (by norm_num [Vector2.cross])
        (by norm_num [Vector2.cross]) (by norm_num [Vector2.cross])]
    rw [if_pos (by norm_num)]
    congr 1
    ext <;> norm_num [Vector2.scale]
  rw [attach_of_some hssi]

theorem trimSqB0 : attachSegments ⟨⟨10, 1⟩, ⟨0, 1⟩⟩ ⟨⟨1, 0⟩, ⟨1, 10⟩⟩ 100 =
    (⟨⟨10, 1⟩, ⟨1, 1⟩⟩, ⟨⟨1, 1⟩, ⟨1, 10⟩⟩, true) := by
  have hssi : segmentSegmentIntersection
      (elongate ⟨⟨10, 1⟩, ⟨0, 1⟩⟩ 100 false true)
      (elongate ⟨⟨1, 0⟩, ⟨1, 10⟩⟩ 100 true false) = some ⟨1, 1⟩ := by
    rw [@elongate_end_eval ⟨⟨10, 1⟩, ⟨0, 1⟩⟩ 100 (10) (by norm_num) (by norm_num),
        @elongate_start_eval ⟨⟨1, 0⟩, ⟨1, 10⟩⟩ 100 (10) (by norm_num) (by norm_num)]
    rw [ssi_eval _ _ (9/110) (101/110) (by norm_num [Vector2.cross])
        (by norm_num [Vector2.cross]) (by norm_num [Vector2.cross])]
    rw [if_pos (by norm_num)]
    congr 1
    ext <;> norm_num [Vector2.scale]
  rw [attach_of_some hssi]

theorem trimSqB1 : attachSegments ⟨⟨1, 1⟩, ⟨1, 10⟩⟩ ⟨⟨0, 9⟩, ⟨10, 9⟩⟩ 100 =
    (⟨⟨1, 1⟩, ⟨1, 9⟩⟩, ⟨⟨1, 9⟩, ⟨10, 9⟩⟩, true) := by
  have hssi : segmentSegmentIntersection
      (elongate ⟨⟨1, 1⟩, ⟨1, 10⟩⟩ 100 false true)
      (elongate ⟨⟨0, 9⟩, ⟨10, 9⟩⟩ 100 true false) = some ⟨1, 9⟩ := by
    rw [@elongate_end_eval ⟨⟨1, 1⟩, ⟨1, 10⟩⟩ 100 (9) (by norm_num) (by norm_num),
        @elongate_start_eval ⟨⟨0, 9⟩, ⟨10, 9⟩⟩ 100 (10) (by norm_num) (by norm_num)]
    rw [ssi_eval _ _ (8/109) (101/110) (by norm_num [Vector2.cross])
        (by norm_num [Vector2.cross]) (by norm_num [Vector2.cross])]
    rw [if_pos (by norm_num)]
    congr 1
    ext <;> norm_num [Vector2.scale]
  rw [attach_of_some hssi]

theorem trimSqB2 : attachSegments ⟨⟨1, 9⟩, ⟨10, 9⟩⟩ ⟨⟨9, 10⟩, ⟨9, 0⟩⟩ 100 =
    (⟨⟨1, 9⟩, ⟨9, 9⟩⟩, ⟨⟨9, 9⟩, ⟨9, 0⟩⟩, true) := by
  have hssi : segmentSegmentIntersection
      (elongate ⟨⟨1, 9⟩, ⟨10, 9⟩⟩ 100 false true)
      (elongate ⟨⟨9, 10⟩, ⟨9, 0⟩⟩ 100 true false) = some ⟨9, 9⟩ := by
    rw [@elongate_end_eval ⟨⟨1, 9⟩, ⟨10, 9⟩⟩ 100 (9) (by norm_num) (by norm_num),
        @elongate_start_eval ⟨⟨9, 10⟩, ⟨9, 0⟩⟩ 100 (10) (by norm_num) (by norm_num)]
    rw [ssi_eval _ _ (8/109) (101/110) (by norm_num [Vector2.cross])
        (by norm_num [Vector2.cross]) (by norm_num [Vector2.cross])]
    rw [if_pos (by norm_num)]
    congr 1
    ext <;> norm_num [Vector2.scale]
  rw [attach_of_some hssi]

theorem trimSqB3 : attachSegments ⟨⟨9, 9⟩, ⟨9, 0⟩⟩ ⟨⟨10, 1⟩, ⟨1, 1⟩⟩ 100 =
    (⟨⟨9, 9⟩, ⟨9, 1⟩⟩, ⟨⟨9, 1⟩, ⟨1, 1⟩⟩, true) := by
  have hssi : segmentSegmentIntersection
      (elongate ⟨⟨9, 9⟩, ⟨9, 0⟩⟩ 100 false true)
      (elongate ⟨⟨10, 1⟩, ⟨1, 1⟩⟩ 100 true false) = some ⟨9, 1⟩ := by
    rw [@elongate_end_eval ⟨⟨9, 9⟩, ⟨9, 0⟩⟩ 100 (9) (by norm_num) (by norm_num),
        @elongate_start_eval ⟨⟨10, 1⟩, ⟨1, 1⟩⟩ 100 (9) (by norm_num) (by norm_num)]
    rw [ssi_eval _ _ (8/109) (101/109) (by norm_num [Vector2.cross])
        (by norm_num [Vector2.cross]) (by norm_num [Vector2.cross])]
    rw [if_pos (by norm_num)]
    congr 1
    ext <;> norm_num [Vector2.scale]
  rw [attach_of_some hssi]

theorem trimTri0 : attachSegments ⟨⟨2, 2⟩, ⟨0, 2⟩⟩ ⟨⟨Real.sqrt 3, -1⟩, ⟨1 + Real.sqrt 3, Real.sqrt 3 - 1⟩⟩ 200 =
    (⟨⟨2, 2⟩, ⟨0, 2⟩⟩, ⟨⟨Real.sqrt 3, -1⟩, ⟨1 + Real.sqrt 3, Real.sqrt 3 - 1⟩⟩, false) := by
  have hnone : segmentSegmentIntersection
      (elongate ⟨⟨2, 2⟩, ⟨0, 2⟩⟩ 200 false true)
      (elongate ⟨⟨Real.sqrt 3, -1⟩, ⟨1 + Real.sqrt 3, Real.sqrt 3 - 1⟩⟩ 200 true false) = none := by
    rw [@elongate_end_eval ⟨⟨2, 2⟩, ⟨0, 2⟩⟩ 200 2 (by norm_num [sqrt3_sq])
        (by norm_num [sqrt3_sq] <;> nlinarith [sqrt3_sq]),
        @elongate_start_eval ⟨⟨Real.sqrt 3, -1⟩, ⟨1 + Real.sqrt 3, Real.sqrt 3 - 1⟩⟩ 200 2 (by norm_num [sqrt3_sq])
        (by norm_num [sqrt3_sq] <;> nlinarith [sqrt3_sq])]
    apply ssi_none_of_neg
    · apply ne_of_lt
      simp only [Vector2.cross, Vector2.sub_x, Vector2.sub_y]
      nlinarith [sqrt3_pos, sqrt3_sq, sqrt3_cube, sqrt3_gt, sqrt3_lt]
    · simp only [Vector2.cross, Vector2.sub_x, Vector2.sub_y]
      nlinarith [sqrt3_pos, sqrt3_sq, sqrt3_cube, sqrt3_gt, sqrt3_lt]
  rw [attach_of_none hnone]

theorem trimTri1 : attachSegments ⟨⟨Real.sqrt 3, -1⟩, ⟨1 + Real.sqrt 3, Real.sqrt 3 - 1⟩⟩ ⟨⟨1 - Real.sqrt 3, Real.sqrt 3 - 1⟩, ⟨2 - Real.sqrt 3, -1⟩⟩ 200 =
    (⟨⟨Real.sqrt 3, -1⟩, ⟨1 + Real.sqrt 3, Real.sqrt 3 - 1⟩⟩, ⟨⟨1 - Real.sqrt 3, Real.sqrt 3 - 1⟩, ⟨2 - Real.sqrt 3, -1⟩⟩, false) := by
  have hnone : segmentSegmentIntersection
      (elongate ⟨⟨Real.sqrt 3, -1⟩, ⟨1 + Real.sqrt 3, Real.sqrt 3 - 1⟩⟩ 200 false true)
      (elongate ⟨⟨1 - Real.sqrt 3, Real.sqrt 3 - 1⟩, ⟨2 - Real.sqrt 3, -1⟩⟩ 200 true false) = none := by
    rw [@elongate_end_eval ⟨⟨Real.sqrt 3, -1⟩, ⟨1 + Real.sqrt 3, Real.sqrt 3 - 1⟩⟩ 200 2 (by norm_num [sqrt3_sq])
        (by norm_num [sqrt3_sq] <;> nlinarith [sqrt3_sq]),
        @elongate_start_eval ⟨⟨1 - Real.sqrt 3, Real.sqrt 3 - 1⟩, ⟨2 - Real.sqrt 3, -1⟩⟩ 200 2 (by norm_num [sqrt3_sq])
        (by norm_num [sqrt3_sq] <;> nlinarith [sqrt3_sq])]
    apply ssi_none_of_neg
    · apply ne_of_lt
      simp only [Vector2.cross, Vector2.sub_x, Vector2.sub_y]
      nlinarith [sqrt3_pos, sqrt3_sq, sqrt3_cube, sqrt3_gt, sqrt3_lt]
    · simp only [Vector2.cross, Vector2.sub_x, Vector2.sub_y]
      nlinarith [sqrt3_pos, sqrt3_sq, sqrt3_cube, sqrt3_gt, sqrt3_lt]
  rw [attach_of_none hnone]

theorem trimTri2 : attachSegments ⟨⟨1 - Real.sqrt 3, Real.sqrt 3 - 1⟩, ⟨2 - Real.sqrt 3, -1⟩⟩ ⟨⟨2, 2⟩, ⟨0, 2⟩⟩ 200 =
    (⟨⟨1 - Real.sqrt 3, Real.sqrt 3 - 1⟩, ⟨2 - Real.sqrt 3, -1⟩⟩, ⟨⟨2, 2⟩, ⟨0, 2⟩⟩, false) := by
  have hnone : segmentSegmentIntersection
      (elongate ⟨⟨1 - Real.sqrt 3, Real.sqrt 3 - 1⟩, ⟨2 - Real.sqrt 3, -1⟩⟩ 200 false true)
      (elongate ⟨⟨2, 2⟩, ⟨0, 2⟩⟩ 200 true false) = none := by
    rw [@elongate_end_eval ⟨⟨1 - Real.sqrt 3, Real.sqrt 3 - 1⟩, ⟨2 - Real.sqrt 3, -1⟩⟩ 200 2 (by norm_num [sqrt3_sq])
        (by norm_num [sqrt3_sq] <;> nlinarith [sqrt3_sq]),
        @elongate_start_eval ⟨⟨2, 2⟩, ⟨0, 2⟩⟩ 200 2 (by norm_num [sqrt3_sq])
        (by norm_num [sqrt3_sq] <;> nlinarith [sqrt3_sq])]
    apply ssi_none_of_neg
    · apply ne_of_lt
      simp only [Vector2.cross, Vector2.sub_x, Vector2.sub_y]
      nlinarith [sqrt3_pos, sqrt3_sq, sqrt3_cube, sqrt3_gt, sqrt3_lt]
    · simp only [Vector2.cross, Vector2.sub_x, Vector2.sub_y]
      nlinarith [sqrt3_pos, sqrt3_sq, sqrt3_cube, sqrt3_gt, sqrt3_lt]
  rw [attach_of_none hnone]

end attachEvals

noncomputable section trimAssembly

/-- The inset result for `rectCW` at d = 2/5. -/
def rectOut : List Segment := [⟨⟨2/5, 2/5⟩, ⟨2/5, 3/5⟩⟩, ⟨⟨2/5, 3/5⟩, ⟨48/5, 3/5⟩⟩, ⟨⟨48/5, 3/5⟩, ⟨48/5, 2/5⟩⟩, ⟨⟨48/5, 2/5⟩, ⟨2/5, 2/5⟩⟩]

/-- The result for `sqCCW` at d = 1: the square offset outward. -/
def sqCCWOut : List Segment := [⟨⟨-1, -1⟩, ⟨11, -1⟩⟩, ⟨⟨11, -1⟩, ⟨11, 11⟩⟩, ⟨⟨11, 11⟩, ⟨-1, 11⟩⟩, ⟨⟨-1, 11⟩, ⟨-1, -1⟩⟩]

/-- The result for `sqCW` at d = 1: the square inset inward. -/
def sqCWOut : List Segment := [⟨⟨1, 1⟩, ⟨1, 9⟩⟩, ⟨⟨1, 9⟩, ⟨9, 9⟩⟩, ⟨⟨9, 9⟩, ⟨9, 1⟩⟩, ⟨⟨9, 1⟩, ⟨1, 1⟩⟩]

/-- The result for `triCW` at d = 2: the three raw insets, none trimmed. -/
def triOut : List Segment := [⟨⟨Real.sqrt 3, -1⟩, ⟨1 + Real.sqrt 3, Real.sqrt 3 - 1⟩⟩, ⟨⟨1 - Real.sqrt 3, Real.sqrt 3 - 1⟩, ⟨2 - Real.sqrt 3, -1⟩⟩, ⟨⟨2, 2⟩, ⟨0, 2⟩⟩]

theorem rect_trim : elongateAndTrimSegments [⟨⟨2/5, 0⟩, ⟨2/5, 1⟩⟩, ⟨⟨0, 3/5⟩, ⟨10, 3/5⟩⟩, ⟨⟨48/5, 1⟩, ⟨48/5, 0⟩⟩, ⟨⟨10, 2/5⟩, ⟨0, 2/5⟩⟩] (40) = rectOut := by
  have st0 : etsStep (40) [⟨⟨2/5, 0⟩, ⟨2/5, 1⟩⟩, ⟨⟨0, 3/5⟩, ⟨10, 3/5⟩⟩, ⟨⟨48/5, 1⟩, ⟨48/5, 0⟩⟩, ⟨⟨10, 2/5⟩, ⟨0, 2/5⟩⟩] 0 = [⟨⟨2/5, 2/5⟩, ⟨2/5, 1⟩⟩, ⟨⟨0, 3/5⟩, ⟨10, 3/5⟩⟩, ⟨⟨48/5, 1⟩, ⟨48/5, 0⟩⟩, ⟨⟨10, 2/5⟩, ⟨2/5, 2/5⟩⟩] := by
    simp only [etsStep]
    rw [show prevIdx ([⟨⟨2/5, 0⟩, ⟨2/5, 1⟩⟩, ⟨⟨0, 3/5⟩, ⟨10, 3/5⟩⟩, ⟨⟨48/5, 1⟩, ⟨48/5, 0⟩⟩, ⟨⟨10, 2/5⟩, ⟨0, 2/5⟩⟩] : List Segment).length 0 = 3 from rfl,
        show ([⟨⟨2/5, 0⟩, ⟨2/5, 1⟩⟩, ⟨⟨0, 3/5⟩, ⟨10, 3/5⟩⟩, ⟨⟨48/5, 1⟩, ⟨48/5, 0⟩⟩, ⟨⟨10, 2/5⟩, ⟨0, 2/5⟩⟩] : List Segment).getD 3 default = ⟨⟨10, 2/5⟩, ⟨0, 2/5⟩⟩ from rfl,
        show ([⟨⟨2/5, 0⟩, ⟨2/5, 1⟩⟩, ⟨⟨0, 3/5⟩, ⟨10, 3/5⟩⟩, ⟨⟨48/5, 1⟩, ⟨48/5, 0⟩⟩, ⟨⟨10, 2/5⟩, ⟨0, 2/5⟩⟩] : List Segment).getD 0 default = ⟨⟨2/5, 0⟩, ⟨2/5, 1⟩⟩ from rfl,
        trimRect0]
    rfl
  have st1 : etsStep (40) [⟨⟨2/5, 2/5⟩, ⟨2/5, 1⟩⟩, ⟨⟨0, 3/5⟩, ⟨10, 3/5⟩⟩, ⟨⟨48/5, 1⟩, ⟨48/5, 0⟩⟩, ⟨⟨10, 2/5⟩, ⟨2/5, 2/5⟩⟩] 1 = [⟨⟨2/5, 2/5⟩, ⟨2/5, 3/5⟩⟩, ⟨⟨2/5, 3/5⟩, ⟨10, 3/5⟩⟩, ⟨⟨48/5, 1⟩, ⟨48/5, 0⟩⟩, ⟨⟨10, 2/5⟩, ⟨2/5, 2/5⟩⟩] := by
    simp only [etsStep]
    rw [show prevIdx ([⟨⟨2/5, 2/5⟩, ⟨2/5, 1⟩⟩, ⟨⟨0, 3/5⟩, ⟨10, 3/5⟩⟩, ⟨⟨48/5, 1⟩, ⟨48/5, 0⟩⟩, ⟨⟨10, 2/5⟩, ⟨2/5, 2/5⟩⟩] : List Segment).length 1 = 0 from rfl,
        show ([⟨⟨2/5, 2/5⟩, ⟨2/5, 1⟩⟩, ⟨⟨0, 3/5⟩, ⟨10, 3/5⟩⟩, ⟨⟨48/5, 1⟩, ⟨48/5, 0⟩⟩, ⟨⟨10, 2/5⟩, ⟨2/5, 2/5⟩⟩] : List Segment).getD 0 default = ⟨⟨2/5, 2/5⟩, ⟨2/5, 1⟩⟩ from rfl,
        show ([⟨⟨2/5, 2/5⟩, ⟨2/5, 1⟩⟩, ⟨⟨0, 3/5⟩, ⟨10, 3/5⟩⟩, ⟨⟨48/5, 1⟩, ⟨48/5, 0⟩⟩, ⟨⟨10, 2/5⟩, ⟨2/5, 2/5⟩⟩] : List Segment).getD 1 default = ⟨⟨0, 3/5⟩, ⟨10, 3/5⟩⟩ from rfl,
        trimRect1]
    rfl
  have st2 : etsStep (40) [⟨⟨2/5, 2/5⟩, ⟨2/5, 3/5⟩⟩, ⟨⟨2/5, 3/5⟩, ⟨10, 3/5⟩⟩, ⟨⟨48/5, 1⟩, ⟨48/5, 0⟩⟩, ⟨⟨10, 2/5⟩, ⟨2/5, 2/5⟩⟩] 2 = [⟨⟨2/5, 2/5⟩, ⟨2/5, 3/5⟩⟩, ⟨⟨2/5, 3/5⟩, ⟨48/5, 3/5⟩⟩, ⟨⟨48/5, 3/5⟩, ⟨48/5, 0⟩⟩, ⟨⟨10, 2/5⟩, ⟨2/5, 2/5⟩⟩] := by
    simp only [etsStep]
    rw [show prevIdx ([⟨⟨2/5, 2/5⟩, ⟨2/5, 3/5⟩⟩, ⟨⟨2/5, 3/5⟩, ⟨10, 3/5⟩⟩, ⟨⟨48/5, 1⟩, ⟨48/5, 0⟩⟩, ⟨⟨10, 2/5⟩, ⟨2/5, 2/5⟩⟩] : List Segment).length 2 = 1 from rfl,
        show ([⟨⟨2/5, 2/5⟩, ⟨2/5, 3/5⟩⟩, ⟨⟨2/5, 3/5⟩, ⟨10, 3/5⟩⟩, ⟨⟨48/5, 1⟩, ⟨48/5, 0⟩⟩, ⟨⟨10, 2/5⟩, ⟨2/5, 2/5⟩⟩] : List Segment).getD 1 default = ⟨⟨2/5, 3/5⟩, ⟨10, 3/5⟩⟩ from rfl,
        show ([⟨⟨2/5, 2/5⟩, ⟨2/5, 3/5⟩⟩, ⟨⟨2/5, 3/5⟩, ⟨10, 3/5⟩⟩, ⟨⟨48/5, 1⟩, ⟨48/5, 0⟩⟩, ⟨⟨10, 2/5⟩, ⟨2/5, 2/5⟩⟩] : List Segment).getD 2 default = ⟨⟨48/5, 1⟩, ⟨48/5, 0⟩⟩ from rfl,
        trimRect2]
    rfl
  have st3 : etsStep (40) [⟨⟨2/5, 2/5⟩, ⟨2/5, 3/5⟩⟩, ⟨⟨2/5, 3/5⟩, ⟨48/5, 3/5⟩⟩, ⟨⟨48/5, 3/5⟩, ⟨48/5, 0⟩⟩, ⟨⟨10, 2/5⟩, ⟨2/5, 2/5⟩⟩] 3 = [⟨⟨2/5, 2/5⟩, ⟨2/5, 3/5⟩⟩, ⟨⟨2/5, 3/5⟩, ⟨48/5, 3/5⟩⟩, ⟨⟨48/5, 3/5⟩, ⟨48/5, 2/5⟩⟩, ⟨⟨48/5, 2/5⟩, ⟨2/5, 2/5⟩⟩] := by
    simp only [etsStep]
    rw [show prevIdx ([⟨⟨2/5, 2/5⟩, ⟨2/5, 3/5⟩⟩, ⟨⟨2/5, 3/5⟩, ⟨48/5, 3/5⟩⟩, ⟨⟨48/5, 3/5⟩, ⟨48/5, 0⟩⟩, ⟨⟨10, 2/5⟩, ⟨2/5, 2/5⟩⟩] : List Segment).length 3 = 2 from rfl,
        show ([⟨⟨2/5, 2/5⟩, ⟨2/5, 3/5⟩⟩, ⟨⟨2/5, 3/5⟩, ⟨48/5, 3/5⟩⟩, ⟨⟨48/5, 3/5⟩, ⟨48/5, 0⟩⟩, ⟨⟨10, 2/5⟩, ⟨2/5, 2/5⟩⟩] : List Segment).getD 2 default = ⟨⟨48/5, 3/5⟩, ⟨48/5, 0⟩⟩ from rfl,
        show ([⟨⟨2/5, 2/5⟩, ⟨2/5, 3/5⟩⟩, ⟨⟨2/5, 3/5⟩, ⟨48/5, 3/5⟩⟩, ⟨⟨48/5, 3/5⟩, ⟨48/5, 0⟩⟩, ⟨⟨10, 2/5⟩, ⟨2/5, 2/5⟩⟩] : List Segment).getD 3 default = ⟨⟨10, 2/5⟩, ⟨2/5, 2/5⟩⟩ from rfl,
        trimRect3]
    rfl
  rw [show ([⟨⟨2/5, 0⟩, ⟨2/5, 1⟩⟩, ⟨⟨0, 3/5⟩, ⟨10, 3/5⟩⟩, ⟨⟨48/5, 1⟩, ⟨48/5, 0⟩⟩, ⟨⟨10, 2/5⟩, ⟨0, 2/5⟩⟩] : List Segment) = [⟨⟨2/5, 0⟩, ⟨2/5, 1⟩⟩, ⟨⟨0, 3/5⟩, ⟨10, 3/5⟩⟩, ⟨⟨48/5, 1⟩, ⟨48/5, 0⟩⟩, ⟨⟨10, 2/5⟩, ⟨0, 2/5⟩⟩] from rfl]
  rw [elongateAndTrimSegments,
      show List.range ([⟨⟨2/5, 0⟩, ⟨2/5, 1⟩⟩, ⟨⟨0, 3/5⟩, ⟨10, 3/5⟩⟩, ⟨⟨48/5, 1⟩, ⟨48/5, 0⟩⟩, ⟨⟨10, 2/5⟩, ⟨0, 2/5⟩⟩] : List Segment).length = [0, 1, 2, 3] from rfl]
  rw [List.foldl_cons, st0, List.foldl_cons, st1, List.foldl_cons, st2,
      List.foldl_cons, st3, List.foldl_nil]
  rfl

theorem sqCCW_trim : elongateAndTrimSegments [⟨⟨0, -1⟩, ⟨10, -1⟩⟩, ⟨⟨11, 0⟩, ⟨11, 10⟩⟩, ⟨⟨10, 11⟩, ⟨0, 11⟩⟩, ⟨⟨-1, 10⟩, ⟨-1, 0⟩⟩] (100) = sqCCWOut := by
  have st0 : etsStep (100) [⟨⟨0, -1⟩, ⟨10, -1⟩⟩, ⟨⟨11, 0⟩, ⟨11, 10⟩⟩, ⟨⟨10, 11⟩, ⟨0, 11⟩⟩, ⟨⟨-1, 10⟩, ⟨-1, 0⟩⟩] 0 = [⟨⟨-1, -1⟩, ⟨10, -1⟩⟩, ⟨⟨11, 0⟩, ⟨11, 10⟩⟩, ⟨⟨10, 11⟩, ⟨0, 11⟩⟩, ⟨⟨-1, 10⟩, ⟨-1, -1⟩⟩] := by
    simp only [etsStep]
    rw [show prevIdx ([⟨⟨0, -1⟩, ⟨10, -1⟩⟩, ⟨⟨11, 0⟩, ⟨11, 10⟩⟩, ⟨⟨10, 11⟩, ⟨0, 11⟩⟩, ⟨⟨-1, 10⟩, ⟨-1, 0⟩⟩] : List Segment).length 0 = 3 from rfl,
        show ([⟨⟨0, -1⟩, ⟨10, -1⟩⟩, ⟨⟨11, 0⟩, ⟨11, 10⟩⟩, ⟨⟨10, 11⟩, ⟨0, 11⟩⟩, ⟨⟨-1, 10⟩, ⟨-1, 0⟩⟩] : List Segment).getD 3 default = ⟨⟨-1, 10⟩, ⟨-1, 0⟩⟩ from rfl,
        show ([⟨⟨0, -1⟩, ⟨10, -1⟩⟩, ⟨⟨11, 0⟩, ⟨11, 10⟩⟩, ⟨⟨10, 11⟩, ⟨0, 11⟩⟩, ⟨⟨-1, 10⟩, ⟨-1, 0⟩⟩] : List Segment).getD 0 default = ⟨⟨0, -1⟩, ⟨10, -1⟩⟩ from rfl,
        trimSqA0]
    rfl
  have st1 : etsStep (100) [⟨⟨-1, -1⟩, ⟨10, -1⟩⟩, ⟨⟨11, 0⟩, ⟨11, 10⟩⟩, ⟨⟨10, 11⟩, ⟨0, 11⟩⟩, ⟨⟨-1, 10⟩, ⟨-1, -1⟩⟩] 1 = [⟨⟨-1, -1⟩, ⟨11, -1⟩⟩, ⟨⟨11, -1⟩, ⟨11, 10⟩⟩, ⟨⟨10, 11⟩, ⟨0, 11⟩⟩, ⟨⟨-1, 10⟩, ⟨-1, -1⟩⟩] := by
    simp only [etsStep]
    rw [show prevIdx ([⟨⟨-1, -1⟩, ⟨10, -1⟩⟩, ⟨⟨11, 0⟩, ⟨11, 10⟩⟩, ⟨⟨10, 11⟩, ⟨0, 11⟩⟩, ⟨⟨-1, 10⟩, ⟨-1, -1⟩⟩] : List Segment).length 1 = 0 from rfl,
        show ([⟨⟨-1, -1⟩, ⟨10, -1⟩⟩, ⟨⟨11, 0⟩, ⟨11, 10⟩⟩, ⟨⟨10, 11⟩, ⟨0, 11⟩⟩, ⟨⟨-1, 10⟩, ⟨-1, -1⟩⟩] : List Segment).getD 0 default = ⟨⟨-1, -1⟩, ⟨10, -1⟩⟩ from rfl,
        show ([⟨⟨-1, -1⟩, ⟨10, -1⟩⟩, ⟨⟨11, 0⟩, ⟨11, 10⟩⟩, ⟨⟨10, 11⟩, ⟨0, 11⟩⟩, ⟨⟨-1, 10⟩, ⟨-1, -1⟩⟩] : List Segment).getD 1 default = ⟨⟨11, 0⟩, ⟨11, 10⟩⟩ from rfl,
        trimSqA1]
    rfl
  have st2 : etsStep (100) [⟨⟨-1, -1⟩, ⟨11, -1⟩⟩, ⟨⟨11, -1⟩, ⟨11, 10⟩⟩, ⟨⟨10, 11⟩, ⟨0, 11⟩⟩, ⟨⟨-1, 10⟩, ⟨-1, -1⟩⟩] 2 = [⟨⟨-1, -1⟩, ⟨11, -1⟩⟩, ⟨⟨11, -1⟩, ⟨11, 11⟩⟩, ⟨⟨11, 11⟩, ⟨0, 11⟩⟩, ⟨⟨-1, 10⟩, ⟨-1, -1⟩⟩] := by
    simp only [etsStep]
    rw [show prevIdx ([⟨⟨-1, -1⟩, ⟨11, -1⟩⟩, ⟨⟨11, -1⟩, ⟨11, 10⟩⟩, ⟨⟨10, 11⟩, ⟨0, 11⟩⟩, ⟨⟨-1, 10⟩, ⟨-1, -1⟩⟩] : List Segment).length 2 = 1 from rfl,
        show ([⟨⟨-1, -1⟩, ⟨11, -1⟩⟩, ⟨⟨11, -1⟩, ⟨11, 10⟩⟩, ⟨⟨10, 11⟩, ⟨0, 11⟩⟩, ⟨⟨-1, 10⟩, ⟨-1, -1⟩⟩] : List Segment).getD 1 default = ⟨⟨11, -1⟩, ⟨11, 10⟩⟩ from rfl,
        show ([⟨⟨-1, -1⟩, ⟨11, -1⟩⟩, ⟨⟨11, -1⟩, ⟨11, 10⟩⟩, ⟨⟨10, 11⟩, ⟨0, 11⟩⟩, ⟨⟨-1, 10⟩, ⟨-1, -1⟩⟩] : List Segment).getD 2 default = ⟨⟨10, 11⟩, ⟨0, 11⟩⟩ from rfl,
        trimSqA2]
    rfl
  have st3 : etsStep (100) [⟨⟨-1, -1⟩, ⟨11, -1⟩⟩, ⟨⟨11, -1⟩, ⟨11, 11⟩⟩, ⟨⟨11, 11⟩, ⟨0, 11⟩⟩, ⟨⟨-1, 10⟩, ⟨-1, -1⟩⟩] 3 = [⟨⟨-1, -1⟩, ⟨11, -1⟩⟩, ⟨⟨11, -1⟩, ⟨11, 11⟩⟩, ⟨⟨11, 11⟩, ⟨-1, 11⟩⟩, ⟨⟨-1, 11⟩, ⟨-1, -1⟩⟩] := by
    simp only [etsStep]
    rw [show prevIdx ([⟨⟨-1, -1⟩, ⟨11, -1⟩⟩, ⟨⟨11, -1⟩, ⟨11, 11⟩⟩, ⟨⟨11, 11⟩, ⟨0, 11⟩⟩, ⟨⟨-1, 10⟩, ⟨-1, -1⟩⟩] : List Segment).length 3 = 2 from rfl,
        show ([⟨⟨-1, -1⟩, ⟨11, -1⟩⟩, ⟨⟨11, -1⟩, ⟨11, 11⟩⟩, ⟨⟨11, 11⟩, ⟨0, 11⟩⟩, ⟨⟨-1, 10⟩, ⟨-1, -1⟩⟩] : List Segment).getD 2 default = ⟨⟨11, 11⟩, ⟨0, 11⟩⟩ from rfl,
        show ([⟨⟨-1, -1⟩, ⟨11, -1⟩⟩, ⟨⟨11, -1⟩, ⟨11, 11⟩⟩, ⟨⟨11, 11⟩, ⟨0, 11⟩⟩, ⟨⟨-1, 10⟩, ⟨-1, -1⟩⟩] : List Segment).getD 3 default = ⟨⟨-1, 10⟩, ⟨-1, -1⟩⟩ from rfl,
        trimSqA3]
    rfl
  rw [show ([⟨⟨0, -1⟩, ⟨10, -1⟩⟩, ⟨⟨11, 0⟩, ⟨11, 10⟩⟩, ⟨⟨10, 11⟩, ⟨0, 11⟩⟩, ⟨⟨-1, 10⟩, ⟨-1, 0⟩⟩] : List Segment) = [⟨⟨0, -1⟩, ⟨10, -1⟩⟩, ⟨⟨11, 0⟩, ⟨11, 10⟩⟩, ⟨⟨10, 11⟩, ⟨0, 11⟩⟩, ⟨⟨-1, 10⟩, ⟨-1, 0⟩⟩] from rfl]
  rw [elongateAndTrimSegments,
      show List.range ([⟨⟨0, -1⟩, ⟨10, -1⟩⟩, ⟨⟨11, 0⟩, ⟨11, 10⟩⟩, ⟨⟨10, 11⟩, ⟨0, 11⟩⟩, ⟨⟨-1, 10⟩, ⟨-1, 0⟩⟩] : List Segment).length = [0, 1, 2, 3] from rfl]
  rw [List.foldl_cons, st0, List.foldl_cons, st1, List.foldl_cons, st2,
      List.foldl_cons, st3, List.foldl_nil]
  rfl

theorem sqCW_trim : elongateAndTrimSegments [⟨⟨1, 0⟩, ⟨1, 10⟩⟩, ⟨⟨0, 9⟩, ⟨10, 9⟩⟩, ⟨⟨9, 10⟩, ⟨9, 0⟩⟩, ⟨⟨10, 1⟩, ⟨0, 1⟩⟩] (100) = sqCWOut := by
  have st0 : etsStep (100) [⟨⟨1, 0⟩, ⟨1, 10⟩⟩, ⟨⟨0, 9⟩, ⟨10, 9⟩⟩, ⟨⟨9, 10⟩, ⟨9, 0⟩⟩, ⟨⟨10, 1⟩, ⟨0, 1⟩⟩] 0 = [⟨⟨1, 1⟩, ⟨1, 10⟩⟩, ⟨⟨0, 9⟩, ⟨10, 9⟩⟩, ⟨⟨9, 10⟩, ⟨9, 0⟩⟩, ⟨⟨10, 1⟩, ⟨1, 1⟩⟩] := by
    simp only [etsStep]
    rw [show prevIdx ([⟨⟨1, 0⟩, ⟨1, 10⟩⟩, ⟨⟨0, 9⟩, ⟨10, 9⟩⟩, ⟨⟨9, 10⟩, ⟨9, 0⟩⟩, ⟨⟨10, 1⟩, ⟨0, 1⟩⟩] : List Segment).length 0 = 3 from rfl,
        show ([⟨⟨1, 0⟩, ⟨1, 10⟩⟩, ⟨⟨0, 9⟩, ⟨10, 9⟩⟩, ⟨⟨9, 10⟩, ⟨9, 0⟩⟩, ⟨⟨10, 1⟩, ⟨0, 1⟩⟩] : List Segment).getD 3 default = ⟨⟨10, 1⟩, ⟨0, 1⟩⟩ from rfl,
        show ([⟨⟨1, 0⟩, ⟨1, 10⟩⟩, ⟨⟨0, 9⟩, ⟨10, 9⟩⟩, ⟨⟨9, 10⟩, ⟨9, 0⟩⟩, ⟨⟨10, 1⟩, ⟨0, 1⟩⟩] : List Segment).getD 0 default = ⟨⟨1, 0⟩, ⟨1, 10⟩⟩ from rfl,
        trimSqB0]
    rfl
  have st1 : etsStep (100) [⟨⟨1, 1⟩, ⟨1, 10⟩⟩, ⟨⟨0, 9⟩, ⟨10, 9⟩⟩, ⟨⟨9, 10⟩, ⟨9, 0⟩⟩, ⟨⟨10, 1⟩, ⟨1, 1⟩⟩] 1 = [⟨⟨1, 1⟩, ⟨1, 9⟩⟩, ⟨⟨1, 9⟩, ⟨10, 9⟩⟩, ⟨⟨9, 10⟩, ⟨9, 0⟩⟩, ⟨⟨10, 1⟩, ⟨1, 1⟩⟩] := by
    simp only [etsStep]
    rw [show prevIdx ([⟨⟨1, 1⟩, ⟨1, 10⟩⟩, ⟨⟨0, 9⟩, ⟨10, 9⟩⟩, ⟨⟨9, 10⟩, ⟨9, 0⟩⟩, ⟨⟨10, 1⟩, ⟨1, 1⟩⟩] : List Segment).length 1 = 0 from rfl,
        show ([⟨⟨1, 1⟩, ⟨1, 10⟩⟩, ⟨⟨0, 9⟩, ⟨10, 9⟩⟩, ⟨⟨9, 10⟩, ⟨9, 0⟩⟩, ⟨⟨10, 1⟩, ⟨1, 1⟩⟩] : List Segment).getD 0 default = ⟨⟨1, 1⟩, ⟨1, 10⟩⟩ from rfl,
        show ([⟨⟨1, 1⟩, ⟨1, 10⟩⟩, ⟨⟨0, 9⟩, ⟨10, 9⟩⟩, ⟨⟨9, 10⟩, ⟨9, 0⟩⟩, ⟨⟨10, 1⟩, ⟨1, 1⟩⟩] : List Segment).getD 1 default = ⟨⟨0, 9⟩, ⟨10, 9⟩⟩ from rfl,
        trimSqB1]
    rfl
  have st2 : etsStep (100) [⟨⟨1, 1⟩, ⟨1, 9⟩⟩, ⟨⟨1, 9⟩, ⟨10, 9⟩⟩, ⟨⟨9, 10⟩, ⟨9, 0⟩⟩, ⟨⟨10, 1⟩, ⟨1, 1⟩⟩] 2 = [⟨⟨1, 1⟩, ⟨1, 9⟩⟩, ⟨⟨1, 9⟩, ⟨9, 9⟩⟩, ⟨⟨9, 9⟩, ⟨9, 0⟩⟩, ⟨⟨10, 1⟩, ⟨1, 1⟩⟩] := by
    simp only [etsStep]
    rw [show prevIdx ([⟨⟨1, 1⟩, ⟨1, 9⟩⟩, ⟨⟨1, 9⟩, ⟨10, 9⟩⟩, ⟨⟨9, 10⟩, ⟨9, 0⟩⟩, ⟨⟨10, 1⟩, ⟨1, 1⟩⟩] : List Segment).length 2 = 1 from rfl,
        show ([⟨⟨1, 1⟩, ⟨1, 9⟩⟩, ⟨⟨1, 9⟩, ⟨10, 9⟩⟩, ⟨⟨9, 10⟩, ⟨9, 0⟩⟩, ⟨⟨10, 1⟩, ⟨1, 1⟩⟩] : List Segment).getD 1 default = ⟨⟨1, 9⟩, ⟨10, 9⟩⟩ from rfl,
        show ([⟨⟨1, 1⟩, ⟨1, 9⟩⟩, ⟨⟨1, 9⟩, ⟨10, 9⟩⟩, ⟨⟨9, 10⟩, ⟨9, 0⟩⟩, ⟨⟨10, 1⟩, ⟨1, 1⟩⟩] : List Segment).getD 2 default = ⟨⟨9, 10⟩, ⟨9, 0⟩⟩ from rfl,
        trimSqB2]
    rfl
  have st3 : etsStep (100) [⟨⟨1, 1⟩, ⟨1, 9⟩⟩, ⟨⟨1, 9⟩, ⟨9, 9⟩⟩, ⟨⟨9, 9⟩, ⟨9, 0⟩⟩, ⟨⟨10, 1⟩, ⟨1, 1⟩⟩] 3 = [⟨⟨1, 1⟩, ⟨1, 9⟩⟩, ⟨⟨1, 9⟩, ⟨9, 9⟩⟩, ⟨⟨9, 9⟩, ⟨9, 1⟩⟩, ⟨⟨9, 1⟩, ⟨1, 1⟩⟩] := by
    simp only [etsStep]
    rw [show prevIdx ([⟨⟨1, 1⟩, ⟨1, 9⟩⟩, ⟨⟨1, 9⟩, ⟨9, 9⟩⟩, ⟨⟨9, 9⟩, ⟨9, 0⟩⟩, ⟨⟨10, 1⟩, ⟨1, 1⟩⟩] : List Segment).length 3 = 2 from rfl,
        show ([⟨⟨1, 1⟩, ⟨1, 9⟩⟩, ⟨⟨1, 9⟩, ⟨9, 9⟩⟩, ⟨⟨9, 9⟩, ⟨9, 0⟩⟩, ⟨⟨10, 1⟩, ⟨1, 1⟩⟩] : List Segment).getD 2 default = ⟨⟨9, 9⟩, ⟨9, 0⟩⟩ from rfl,
        show ([⟨⟨1, 1⟩, ⟨1, 9⟩⟩, ⟨⟨1, 9⟩, ⟨9, 9⟩⟩, ⟨⟨9, 9⟩, ⟨9, 0⟩⟩, ⟨⟨10, 1⟩, ⟨1, 1⟩⟩] : List Segment).getD 3 default = ⟨⟨10, 1⟩, ⟨1, 1⟩⟩ from rfl,
        trimSqB3]
    rfl
  rw [show ([⟨⟨1, 0⟩, ⟨1, 10⟩⟩, ⟨⟨0, 9⟩, ⟨10, 9⟩⟩, ⟨⟨9, 10⟩, ⟨9, 0⟩⟩, ⟨⟨10, 1⟩, ⟨0, 1⟩⟩] : List Segment) = [⟨⟨1, 0⟩, ⟨1, 10⟩⟩, ⟨⟨0, 9⟩, ⟨10, 9⟩⟩, ⟨⟨9, 10⟩, ⟨9, 0⟩⟩, ⟨⟨10, 1⟩, ⟨0, 1⟩⟩] from rfl]
  rw [elongateAndTrimSegments,
      show List.range ([⟨⟨1, 0⟩, ⟨1, 10⟩⟩, ⟨⟨0, 9⟩, ⟨10, 9⟩⟩, ⟨⟨9, 10⟩, ⟨9, 0⟩⟩, ⟨⟨10, 1⟩, ⟨0, 1⟩⟩] : List Segment).length = [0, 1, 2, 3] from rfl]
  rw [List.foldl_cons, st0, List.foldl_cons, st1, List.foldl_cons, st2,
      List.foldl_cons, st3, List.foldl_nil]
  rfl

theorem tri_trim : elongateAndTrimSegments [⟨⟨Real.sqrt 3, -1⟩, ⟨1 + Real.sqrt 3, Real.sqrt 3 - 1⟩⟩, ⟨⟨1 - Real.sqrt 3, Real.sqrt 3 - 1⟩, ⟨2 - Real.sqrt 3, -1⟩⟩, ⟨⟨2, 2⟩, ⟨0, 2⟩⟩] 200 = triOut := by
  have st0 : etsStep 200 [⟨⟨Real.sqrt 3, -1⟩, ⟨1 + Real.sqrt 3, Real.sqrt 3 - 1⟩⟩, ⟨⟨1 - Real.sqrt 3, Real.sqrt 3 - 1⟩, ⟨2 - Real.sqrt 3, -1⟩⟩, ⟨⟨2, 2⟩, ⟨0, 2⟩⟩] 0 = [⟨⟨Real.sqrt 3, -1⟩, ⟨1 + Real.sqrt 3, Real.sqrt 3 - 1⟩⟩, ⟨⟨1 - Real.sqrt 3, Real.sqrt 3 - 1⟩, ⟨2 - Real.sqrt 3, -1⟩⟩, ⟨⟨2, 2⟩, ⟨0, 2⟩⟩] := by
    simp only [etsStep]
    rw [show prevIdx ([⟨⟨Real.sqrt 3, -1⟩, ⟨1 + Real.sqrt 3, Real.sqrt 3 - 1⟩⟩, ⟨⟨1 - Real.sqrt 3, Real.sqrt 3 - 1⟩, ⟨2 - Real.sqrt 3, -1⟩⟩, ⟨⟨2, 2⟩, ⟨0, 2⟩⟩] : List Segment).length 0 = 2 from rfl,
        show ([⟨⟨Real.sqrt 3, -1⟩, ⟨1 + Real.sqrt 3, Real.sqrt 3 - 1⟩⟩, ⟨⟨1 - Real.sqrt 3, Real.sqrt 3 - 1⟩, ⟨2 - Real.sqrt 3, -1⟩⟩, ⟨⟨2, 2⟩, ⟨0, 2⟩⟩] : List Segment).getD 2 default = ⟨⟨2, 2⟩, ⟨0, 2⟩⟩ from rfl,
        show ([⟨⟨Real.sqrt 3, -1⟩, ⟨1 + Real.sqrt 3, Real.sqrt 3 - 1⟩⟩, ⟨⟨1 - Real.sqrt 3, Real.sqrt 3 - 1⟩, ⟨2 - Real.sqrt 3, -1⟩⟩, ⟨⟨2, 2⟩, ⟨0, 2⟩⟩] : List Segment).getD 0 default = ⟨⟨Real.sqrt 3, -1⟩, ⟨1 + Real.sqrt 3, Real.sqrt 3 - 1⟩⟩ from rfl,
        trimTri0]
    rfl
  have st1 : etsStep 200 [⟨⟨Real.sqrt 3, -1⟩, ⟨1 + Real.sqrt 3, Real.sqrt 3 - 1⟩⟩, ⟨⟨1 - Real.sqrt 3, Real.sqrt 3 - 1⟩, ⟨2 - Real.sqrt 3, -1⟩⟩, ⟨⟨2, 2⟩, ⟨0, 2⟩⟩] 1 = [⟨⟨Real.sqrt 3, -1⟩, ⟨1 + Real.sqrt 3, Real.sqrt 3 - 1⟩⟩, ⟨⟨1 - Real.sqrt 3, Real.sqrt 3 - 1⟩, ⟨2 - Real.sqrt 3, -1⟩⟩, ⟨⟨2, 2⟩, ⟨0, 2⟩⟩] := by
    simp only [etsStep]
    rw [show prevIdx ([⟨⟨Real.sqrt 3, -1⟩, ⟨1 + Real.sqrt 3, Real.sqrt 3 - 1⟩⟩, ⟨⟨1 - Real.sqrt 3, Real.sqrt 3 - 1⟩, ⟨2 - Real.sqrt 3, -1⟩⟩, ⟨⟨2, 2⟩, ⟨0, 2⟩⟩] : List Segment).length 1 = 0 from rfl,
        show ([⟨⟨Real.sqrt 3, -1⟩, ⟨1 + Real.sqrt 3, Real.sqrt 3 - 1⟩⟩, ⟨⟨1 - Real.sqrt 3, Real.sqrt 3 - 1⟩, ⟨2 - Real.sqrt 3, -1⟩⟩, ⟨⟨2, 2⟩, ⟨0, 2⟩⟩] : List Segment).getD 0 default = ⟨⟨Real.sqrt 3, -1⟩, ⟨1 + Real.sqrt 3, Real.sqrt 3 - 1⟩⟩ from rfl,
        show ([⟨⟨Real.sqrt 3, -1⟩, ⟨1 + Real.sqrt 3, Real.sqrt 3 - 1⟩⟩, ⟨⟨1 - Real.sqrt 3, Real.sqrt 3 - 1⟩, ⟨2 - Real.sqrt 3, -1⟩⟩, ⟨⟨2, 2⟩, ⟨0, 2⟩⟩] : List Segment).getD 1 default = ⟨⟨1 - Real.sqrt 3, Real.sqrt 3 - 1⟩, ⟨2 - Real.sqrt 3, -1⟩⟩ from rfl,
        trimTri1]
    rfl
  have st2 : etsStep 200 [⟨⟨Real.sqrt 3, -1⟩, ⟨1 + Real.sqrt 3, Real.sqrt 3 - 1⟩⟩, ⟨⟨1 - Real.sqrt 3, Real.sqrt 3 - 1⟩, ⟨2 - Real.sqrt 3, -1⟩⟩, ⟨⟨2, 2⟩, ⟨0, 2⟩⟩] 2 = [⟨⟨Real.sqrt 3, -1⟩, ⟨1 + Real.sqrt 3, Real.sqrt 3 - 1⟩⟩, ⟨⟨1 - Real.sqrt 3, Real.sqrt 3 - 1⟩, ⟨2 - Real.sqrt 3, -1⟩⟩, ⟨⟨2, 2⟩, ⟨0, 2⟩⟩] := by
    simp only [etsStep]
    rw [show prevIdx ([⟨⟨Real.sqrt 3, -1⟩, ⟨1 + Real.sqrt 3, Real.sqrt 3 - 1⟩⟩, ⟨⟨1 - Real.sqrt 3, Real.sqrt 3 - 1⟩, ⟨2 - Real.sqrt 3, -1⟩⟩, ⟨⟨2, 2⟩, ⟨0, 2⟩⟩] : List Segment).length 2 = 1 from rfl,
        show ([⟨⟨Real.sqrt 3, -1⟩, ⟨1 + Real.sqrt 3, Real.sqrt 3 - 1⟩⟩, ⟨⟨1 - Real.sqrt 3, Real.sqrt 3 - 1⟩, ⟨2 - Real.sqrt 3, -1⟩⟩, ⟨⟨2, 2⟩, ⟨0, 2⟩⟩] : List Segment).getD 1 default = ⟨⟨1 - Real.sqrt 3, Real.sqrt 3 - 1⟩, ⟨2 - Real.sqrt 3, -1⟩⟩ from rfl,
        show ([⟨⟨Real.sqrt 3, -1⟩, ⟨1 + Real.sqrt 3, Real.sqrt 3 - 1⟩⟩, ⟨⟨1 - Real.sqrt 3, Real.sqrt 3 - 1⟩, ⟨2 - Real.sqrt 3, -1⟩⟩, ⟨⟨2, 2⟩, ⟨0, 2⟩⟩] : List Segment).getD 2 default = ⟨⟨2, 2⟩, ⟨0, 2⟩⟩ from rfl,
        trimTri2]
    rfl
  rw [elongateAndTrimSegments,
      show List.range ([⟨⟨Real.sqrt 3, -1⟩, ⟨1 + Real.sqrt 3, Real.sqrt 3 - 1⟩⟩, ⟨⟨1 - Real.sqrt 3, Real.sqrt 3 - 1⟩, ⟨2 - Real.sqrt 3, -1⟩⟩, ⟨⟨2, 2⟩, ⟨0, 2⟩⟩] : List Segment).length = [0, 1, 2] from rfl]
  rw [List.foldl_cons, st0, List.foldl_cons, st1, List.foldl_cons, st2,
      List.foldl_nil]
  rfl

end trimAssembly

section insetAssembly

theorem rect_inset_eval : shrinkyInset rectCW (2 / 5) (3 / 10) = .ok rectOut := by
  rw [shrinkyInset]
  rw [if_neg (show ¬ rectCW.length < 2 from by norm_num [rectCW])]
  rw [rect_createBisectors]
  dsimp only
  rw [rect_rcs]
  rw [if_pos (show 0 < rectCW.length from by norm_num [rectCW])]
  rw [rect_insets]
  rw [show ((2 / 5 : ℝ) * 100) = 40 from by norm_num]
  rw [rect_trim]

theorem sqCCW_inset_eval : shrinkyInset sqCCW (1) (1 / 100) = .ok sqCCWOut := by
  rw [shrinkyInset]
  rw [if_neg (show ¬ sqCCW.length < 2 from by norm_num [sqCCW])]
  rw [sqCCW_createBisectors]
  dsimp only
  rw [sqCCW_rcs]
  rw [if_pos (show 0 < sqCCW.length from by norm_num [sqCCW])]
  rw [sqCCW_insets]
  rw [show ((1 : ℝ) * 100) = 100 from by norm_num]
  rw [sqCCW_trim]

theorem sqCW_inset_eval : shrinkyInset sqCW (1) (1 / 100) = .ok sqCWOut := by
  rw [shrinkyInset]
  rw [if_neg (show ¬ sqCW.length < 2 from by norm_num [sqCW])]
  rw [sqCW_createBisectors]
  dsimp only
  rw [sqCW_rcs]
  rw [if_pos (show 0 < sqCW.length from by norm_num [sqCW])]
  rw [sqCW_insets]
  rw [show ((1 : ℝ) * 100) = 100 from by norm_num]
  rw [sqCW_trim]

theorem tri_inset_eval : shrinkyInset triCW (2) (1 / 100) = .ok triOut := by
  rw [shrinkyInset]
  rw [if_neg (show ¬ triCW.length < 2 from by norm_num [triCW])]
  rw [tri_createBisectors]
  dsimp only
  rw [tri_rcs]
  rw [if_pos (show 0 < triCW.length from by norm_num [triCW])]
  rw [tri_insets]
  rw [show ((2 : ℝ) * 100) = 200 from by norm_num]
  rw [tri_trim]

end insetAssembly

section rssDemo

theorem rss_demo :
    removeShortSegments [⟨⟨0, 0⟩, ⟨5, 0⟩⟩, ⟨⟨5, 0⟩, ⟨5, 1 / 10⟩⟩, ⟨⟨5, 1 / 10⟩, ⟨0, 1 / 10⟩⟩] (3 / 10) =
      [⟨⟨0, 0⟩, ⟨5, 1 / 10⟩⟩, ⟨⟨5, 1 / 10⟩, ⟨0, 1 / 10⟩⟩] := by
  rw [removeShortSegments]
  rw [show List.replicate (([⟨⟨0, 0⟩, ⟨5, 0⟩⟩, ⟨⟨5, 0⟩, ⟨5, 1 / 10⟩⟩, ⟨⟨5, 1 / 10⟩, ⟨0, 1 / 10⟩⟩] : List Segment).length + 1) () =
    [(), (), (), ()] from rfl]
  simp only [rssAux]
  simp only [show wrapSucc ([⟨⟨0, 0⟩, ⟨5, 0⟩⟩, ⟨⟨5, 0⟩, ⟨5, 1 / 10⟩⟩, ⟨⟨5, 1 / 10⟩, ⟨0, 1 / 10⟩⟩] : List Segment).length 0 = 1 from rfl,
      show wrapSucc ([⟨⟨0, 0⟩, ⟨5, 0⟩⟩, ⟨⟨5, 0⟩, ⟨5, 1 / 10⟩⟩, ⟨⟨5, 1 / 10⟩, ⟨0, 1 / 10⟩⟩] : List Segment).length 1 = 2 from rfl,
      show wrapSucc ([⟨⟨0, 0⟩, ⟨5, 0⟩⟩, ⟨⟨5, 0⟩, ⟨5, 1 / 10⟩⟩, ⟨⟨5, 1 / 10⟩, ⟨0, 1 / 10⟩⟩] : List Segment).length 2 = 0 from rfl,
      show ([⟨⟨0, 0⟩, ⟨5, 0⟩⟩, ⟨⟨5, 0⟩, ⟨5, 1 / 10⟩⟩, ⟨⟨5, 1 / 10⟩, ⟨0, 1 / 10⟩⟩] : List Segment).getD 0 default = ⟨⟨0, 0⟩, ⟨5, 0⟩⟩ from rfl,
      show ([⟨⟨0, 0⟩, ⟨5, 0⟩⟩, ⟨⟨5, 0⟩, ⟨5, 1 / 10⟩⟩, ⟨⟨5, 1 / 10⟩, ⟨0, 1 / 10⟩⟩] : List Segment).getD 1 default = ⟨⟨5, 0⟩, ⟨5, 1 / 10⟩⟩ from rfl,
      show ([⟨⟨0, 0⟩, ⟨5, 0⟩⟩, ⟨⟨5, 0⟩, ⟨5, 1 / 10⟩⟩, ⟨⟨5, 1 / 10⟩, ⟨0, 1 / 10⟩⟩] : List Segment).getD 2 default = ⟨⟨5, 1 / 10⟩, ⟨0, 1 / 10⟩⟩ from rfl]
  rw [if_pos (show (0 : ℕ) < ([⟨⟨0, 0⟩, ⟨5, 0⟩⟩, ⟨⟨5, 0⟩, ⟨5, 1 / 10⟩⟩, ⟨⟨5, 1 / 10⟩, ⟨0, 1 / 10⟩⟩] : List Segment).length from by norm_num)]
  rw [if_pos (show Segment.squaredLength ⟨⟨5, 0⟩, ⟨5, 1 / 10⟩⟩ <
    3 / 10 * (3 / 10) from by norm_num [Segment.squaredLength])]
  rw [if_pos (show (2 : ℕ) < ([⟨⟨0, 0⟩, ⟨5, 0⟩⟩, ⟨⟨5, 0⟩, ⟨5, 1 / 10⟩⟩, ⟨⟨5, 1 / 10⟩, ⟨0, 1 / 10⟩⟩] : List Segment).length from by norm_num)]
  rw [if_neg (show ¬ Segment.squaredLength ⟨⟨0, 0⟩, ⟨5, 0⟩⟩ <
    3 / 10 * (3 / 10) from by norm_num [Segment.squaredLength])]
  rw [if_neg (show ¬ (3 : ℕ) < ([⟨⟨0, 0⟩, ⟨5, 0⟩⟩, ⟨⟨5, 0⟩, ⟨5, 1 / 10⟩⟩, ⟨⟨5, 1 / 10⟩, ⟨0, 1 / 10⟩⟩] : List Segment).length from by norm_num)]
  rfl

end rssDemo

section claimTheorems

/-- Claim C1, counterexample: inset of the side-2 equilateral triangle at
d = 2 raises no error at all — it returns successfully (with the three
un-trimmed raw insets), so no `CollapsedPolygon` error is raised. -/
theorem C1_counterexample : shrinkyInset triCW 2 (1 / 100) = .ok triOut :=
  tri_inset_eval

/-- Claim C1 (amended): the code has no CollapsedPolygon error; on the side-2
equilateral triangle at d = 2 the collapse-removal step drops no segment
(the bisector bookkeeping tests the wrong rays) and the inset call returns a
3-segment result without raising. -/
theorem C1_no_collapsedPolygon :
    removeCollapsedSegments triCW triBis 2 = triCW ∧
      shrinkyInset triCW 2 (1 / 100) = .ok triOut ∧ triOut.length = 3 :=
  ⟨tri_rcs, tri_inset_eval, by norm_num [triOut]⟩

/-- Claim C2, counterexample: on the counter-clockwise square loop of the
claim, `Shrinky::inset` offsets outward — the first produced corner is
(-1, -1), which is not within 10⁻⁶ of the claimed (1, 1). -/
theorem C2_counterexample :
    shrinkyInset sqCCW 1 (1 / 100) = .ok sqCCWOut ∧
      (sqCCWOut.getD 0 default).a = ⟨-1, -1⟩ ∧
      ¬ |(-1 : ℝ) - 1| ≤ 1 / 1000000 := by
  refine ⟨sqCCW_inset_eval, rfl, ?_⟩
  rw [show ((-1 : ℝ) - 1) = -2 from by norm_num, abs_neg, abs_two]
  norm_num

/-- Claim C2 (amended): the inset directions point right of each segment, so
the clockwise orientation of the square yields the claimed inward inset
(corners (1,1), (1,9), (9,9), (9,1), exactly); the counter-clockwise loop of
the claim instead yields the outward offset with corners (-1,-1), (11,-1),
(11,11), (-1,11). -/
theorem C2_square_insets :
    shrinkyInset sqCW 1 (1 / 100) = .ok sqCWOut ∧
      shrinkyInset sqCCW 1 (1 / 100) = .ok sqCCWOut ∧
      (sqCWOut.getD 0 default).a = ⟨1, 1⟩ :=
  ⟨sqCW_inset_eval, sqCCW_inset_eval, rfl⟩

/-- Claim C3: by the claim's Heron rule every side of the side-2 equilateral
triangle must be dropped at d = 2 (the bisector-triangle altitude is
1/sqrt 3 < 2), yet the code's collapse-removal loop keeps all three segments:
its start ray uses the previous vertex's bisector (`prevBisector` starts at
n-1 and stalls on collapse) and its end ray is elongated only backward. -/
theorem C3_collapse_vs_code :
    triangleAltitude 2 (2 / Real.sqrt 3) (2 / Real.sqrt 3) < 2 ∧
      removeCollapsedSegments triCW triBis 2 = triCW := by
  refine ⟨?_, tri_rcs⟩
  have hu : (2 / Real.sqrt 3) ^ 2 = 4 / 3 := by
    rw [div_pow, sqrt3_sq]
    norm_num
  simp only [triangleAltitude]
  have hprod : 0.5 * (2 + 2 / Real.sqrt 3 + 2 / Real.sqrt 3) *
      (0.5 * (2 + 2 / Real.sqrt 3 + 2 / Real.sqrt 3) - 2) *
      (0.5 * (2 + 2 / Real.sqrt 3 + 2 / Real.sqrt 3) - 2 / Real.sqrt 3) *
      (0.5 * (2 + 2 / Real.sqrt 3 + 2 / Real.sqrt 3) - 2 / Real.sqrt 3) =
      1 / 3 := by
    linear_combination hu
  rw [hprod]
  have h1 : Real.sqrt (1 / 3) ≤ 1 := by
    have h2 := Real.sqrt_le_sqrt (show (1 : ℝ) / 3 ≤ 1 from by norm_num)
    rwa [Real.sqrt_one] at h2
  linarith [h1]

/-- Claim C4, counterexample: the inset pipeline performs no short-segment
removal pass — with cutoff 3/10, the inset of the 10 x 1 rectangle keeps its
first output segment of squared length 1/25 < (3/10)². -/
theorem C4_counterexample :
    shrinkyInset rectCW (2 / 5) (3 / 10) = .ok rectOut ∧
      (rectOut.getD 0 default).squaredLength < (3 / 10) ^ 2 := by
  refine ⟨rect_inset_eval, ?_⟩
  rw [show rectOut.getD 0 default = ⟨⟨2 / 5, 2 / 5⟩, ⟨2 / 5, 3 / 5⟩⟩ from rfl]
  norm_num [Segment.squaredLength]

/-- Claim C4 (amended): `removeShortSegments` merges a segment with its
predecessor when the following segment is below the cutoff and skips an
index, but `Shrinky::inset` never invokes it, so inset output may retain
segments shorter than the cutoff. -/
theorem C4_short_segments :
    removeShortSegments [⟨⟨0, 0⟩, ⟨5, 0⟩⟩, ⟨⟨5, 0⟩, ⟨5, 1 / 10⟩⟩,
        ⟨⟨5, 1 / 10⟩, ⟨0, 1 / 10⟩⟩] (3 / 10) =
      [⟨⟨0, 0⟩, ⟨5, 1 / 10⟩⟩, ⟨⟨5, 1 / 10⟩, ⟨0, 1 / 10⟩⟩] ∧
    shrinkyInset rectCW (2 / 5) (3 / 10) = .ok rectOut ∧
      (rectOut.getD 0 default).squaredLength < (3 / 10) ^ 2 := by
  refine ⟨rss_demo, rect_inset_eval, ?_⟩
  rw [show rectOut.getD 0 default = ⟨⟨2 / 5, 2 / 5⟩, ⟨2 / 5, 3 / 5⟩⟩ from rfl]
  norm_num [Segment.squaredLength]

/-- Claim C5, witness: a concrete two-segment open input makes the inset
call fail with the open-polygon error, via the iff theorem. -/
theorem C5_witness :
    2 ≤ openSegs.length ∧
      shrinkyInset openSegs 1 (1 / 100) =
        .error ShrinkyMess.notClosedPolygon :=
  ⟨by norm_num [openSegs],
    (C5_openPolygon_iff openSegs 1 (1 / 100)
      (by norm_num [openSegs])).mpr openSegs_not_closed⟩

/-- Claim C6, witness: the raw inset of the single segment (0,0)-(3,4) at
d = 2 is the segment translated by 2·(4/5, -3/5). -/
theorem C6_witness :
    0 < ([⟨⟨0, 0⟩, ⟨3, 4⟩⟩] : List Segment).length ∧
      (insetSegments [⟨⟨0, 0⟩, ⟨3, 4⟩⟩] 2).getD 0 default =
        ⟨⟨8 / 5, -(6 / 5)⟩, ⟨23 / 5, 14 / 5⟩⟩ := by
  refine ⟨by norm_num, ?_⟩
  rw [(C6_raw_inset_translation [⟨⟨0, 0⟩, ⟨3, 4⟩⟩] 2).2 0 (by norm_num)]
  rw [show ([⟨⟨0, 0⟩, ⟨3, 4⟩⟩] : List Segment).getD 0 default =
    ⟨⟨0, 0⟩, ⟨3, 4⟩⟩ from rfl]
  rw [@getInsetDirection_eval ⟨⟨0, 0⟩, ⟨3, 4⟩⟩ 5 (by norm_num) (by norm_num)]
  ext <;> norm_num [Vector2.scale]

/-- Claim C7, witness: a parallel raw-inset pair has no intersection and is
left unchanged by `attachSegments`, and the closed rectangle insets without
any error. -/
theorem C7_witness :
    segmentSegmentIntersection (elongate ⟨⟨0, 0⟩, ⟨1, 0⟩⟩ 5 false true)
        (elongate ⟨⟨0, 1⟩, ⟨1, 1⟩⟩ 5 true false) = none ∧
      attachSegments ⟨⟨0, 0⟩, ⟨1, 0⟩⟩ ⟨⟨0, 1⟩, ⟨1, 1⟩⟩ 5 =
        (⟨⟨0, 0⟩, ⟨1, 0⟩⟩, ⟨⟨0, 1⟩, ⟨1, 1⟩⟩, false) ∧
      isClosedPoly rectCW (3 / 10) ∧
      ∃ out, shrinkyInset rectCW (2 / 5) (3 / 10) = .ok out := by
  have hnone : segmentSegmentIntersection
      (elongate ⟨⟨0, 0⟩, ⟨1, 0⟩⟩ 5 false true)
      (elongate ⟨⟨0, 1⟩, ⟨1, 1⟩⟩ 5 true false) = none := by
    rw [@elongate_end_eval ⟨⟨0, 0⟩, ⟨1, 0⟩⟩ 5 1 (by norm_num) (by norm_num),
        @elongate_start_eval ⟨⟨0, 1⟩, ⟨1, 1⟩⟩ 5 1 (by norm_num) (by norm_num)]
    apply ssi_none_of_cross_eq_zero
    simp only [Vector2.cross, Vector2.sub_x, Vector2.sub_y]
    ring
  exact ⟨hnone, C7_trim_failure_soft.1 _ _ _ hnone, rect_closed,
    C7_trim_failure_soft.2 rectCW (2 / 5) (3 / 10) (by norm_num [rectCW])
      rect_closed⟩

/-- Claim C8, counterexample: the degenerate spiked quadrilateral passes the
adjacency check, yet the bisector at its first vertex is the zero vector
(the two adjacent inset normals cancel), whose magnitude 0 is not within
10⁻⁹ of 1. -/
theorem C8_counterexample :
    createBisectors spikeQuad (1 / 100) = .ok spikeBis ∧
      spikeBis.getD 0 default = ⟨0, 0⟩ ∧
      ¬ |Vector2.magnitude ⟨0, 0⟩ - 1| ≤ 1 / 1000000000 := by
  refine ⟨spike_createBisectors, rfl, ?_⟩
  rw [show Vector2.magnitude ⟨0, 0⟩ = 0 from by
    rw [Vector2.magnitude]; norm_num]
  rw [show ((0 : ℝ) - 1) = -1 from by norm_num, abs_neg, abs_one]
  norm_num

/-- Claim C8, witness: the first bisector of the rectangle, whose adjacent
inset normals sum to (1, 1) ≠ 0, is exactly unit length. -/
theorem C8_witness :
    createBisectors rectCW (3 / 10) = .ok rectBis ∧
      bisectorSumAt rectCW 0 ≠ ⟨0, 0⟩ ∧
      (rectBis.getD 0 default).magnitude = 1 ∧
      |(rectBis.getD 0 default).magnitude - 1| ≤ 1 / 1000000000 := by
  have hsum : bisectorSumAt rectCW 0 = ⟨1, 1⟩ := by
    simp only [bisectorSumAt]
    rw [show prevIdx rectCW.length 0 = 3 from rfl,
        show rectCW.getD 0 default = ⟨⟨0, 0⟩, ⟨0, 1⟩⟩ from rfl,
        show rectCW.getD 3 default = ⟨⟨10, 0⟩, ⟨0, 0⟩⟩ from rfl,
        gidRect0, gidRect3]
    ext <;> norm_num
  have hnz : bisectorSumAt rectCW 0 ≠ ⟨0, 0⟩ := by
    rw [hsum]
    intro h
    have := congrArg Vector2.x h
    norm_num at this
  refine ⟨rect_createBisectors, hnz, ?_⟩
  exact C8_bisector_unit rectCW (3 / 10) rectBis rect_createBisectors 0
    (by norm_num [rectBis]) hnz

/-- Claim C10, witness: the rectangle run — no segment collapses, and the
output has exactly the four segments of the input. -/
theorem C10_witness :
    shrinkyInset rectCW (2 / 5) (3 / 10) = .ok rectOut ∧
      ∃ bs, createBisectors rectCW (3 / 10) = .ok bs ∧
        rectOut.length = (removeCollapsedSegments rectCW bs (2 / 5)).length ∧
        (removeCollapsedSegments rectCW bs (2 / 5) = rectCW →
          rectOut.length = rectCW.length) :=
  ⟨rect_inset_eval,
    C10_one_output_per_survivor rectCW (2 / 5) (3 / 10) rectOut
      rect_inset_eval⟩

end claimTheorems
